import Mathlib

/-!
OFREP bulk provider: embedding and verification.

A shallow embedding of the OFREP bulk provider (`bulk_provider.go`), its typed
resolution layer (`internal/evaluate/flags.go`) and the header step of the
outbound client (`internal/outbound/http.go`).

Conventions of the embedding:

* every method that runs under `p.mu` is one atomic function on the provider
  fields; a method that talks to the outside world (the HTTP fetch, the fresh
  context of `context.WithCancel`) receives the outcome as an argument;
* a Go `error` is `Option GoError`, `none` being `nil`;
* the buffered channel `p.events` is its capacity together with the queued
  events; a send on a full channel parks the sending goroutine.
-/

namespace Ofrep

/-! ## Dynamic values -/

/-- A Go floating-point number: not-a-number, an infinity, or the finite value
`m * 2 ^ e`. -/
inductive GoFloat where
  | nan
  | inf (neg : Bool)
  | fin (m : Int) (e : Int)
  deriving DecidableEq, Repr

/-- A Go value of static type `any` (`interface{}`), by dynamic type. -/
inductive Value where
  | null
  | bool (b : Bool)
  | string (s : String)
  | int (i : Int)
  | int64 (i : Int)
  | float32 (f : GoFloat)
  | float64 (f : GoFloat)
  | object (fields : List (String × Value))
  | list (items : List Value)

/-- Go `map[string]interface{}`: a lookup function, `none` for an absent key. -/
abbrev GoMap := String → Option Value

/-- Go `m[k] = v`. -/
def GoMap.set (m : GoMap) (k : String) (v : Value) : GoMap :=
  fun k' => if k' = k then some v else m k'

/-! ## Errors, contexts, events -/

/-- A Go `error`: the text of `Error()` and whether
`errors.Is(err, context.Canceled)` holds. -/
structure GoError where
  msg : String
  canceled : Bool
  deriving DecidableEq, Repr

/-- Go `errors.Is(err, context.Canceled)`; false on a nil error. -/
def isCanceled : Option GoError → Bool
  | none => false
  | some e => e.canceled

/-- Go `fmt.Errorf("failed to fetch data: %w", err)`: the text is extended and
the wrapped error stays reachable for `errors.Is`. -/
def wrapFetchError (e : GoError) : GoError :=
  { msg := "failed to fetch data: " ++ e.msg, canceled := e.canceled }

/-- A `context.Context` made by `context.WithCancel`, named by a number; its
`CancelFunc` is named by the same number. -/
abbrev Context := Nat

/-- The `of.State` constants. -/
inductive State where
  | NotReadyState
  | ReadyState
  | ErrorState
  | StaleState
  deriving DecidableEq, Repr

/-- The `of.EventType` constants. -/
inductive EventType where
  | ProviderReady
  | ProviderConfigChange
  | ProviderError
  | ProviderStale
  deriving DecidableEq, Repr

/-- An `of.Event` as the provider builds it: provider name, event type and the
message of its `ProviderEventDetails`. -/
structure Event where
  ProviderName : String
  EventType : EventType
  Message : String
  deriving DecidableEq, Repr

/-- A buffered Go channel of events: `make(chan of.Event, cap)`. -/
structure EventChan where
  cap : Nat
  buf : List Event
  deriving DecidableEq, Repr

/-- A channel send `ch <- e`: the event is queued when the buffer has room,
otherwise (`none`) the sender parks. -/
def EventChan.send (ch : EventChan) (e : Event) : Option EventChan :=
  if ch.buf.length < ch.cap then some { ch with buf := ch.buf ++ [e] } else none

/-! ## Outbound configuration (`internal/outbound/http.go`) -/

/-- A header callback returns a header name and a header value. -/
abbrev HeaderCallback := Unit → String × String

/-- The part of `http.Client` the code sets: the timeout, in nanoseconds. -/
structure HttpClient where
  Timeout : Int
  deriving DecidableEq, Repr

/-- Go `time.Second`, in nanoseconds. -/
def second : Int := 1000000000

/-- Go `time.Millisecond`, in nanoseconds. -/
def millisecond : Int := 1000000

structure Configuration where
  BaseURI : String
  Callbacks : List HeaderCallback
  Client : Option HttpClient
  ClientPollingInterval : Int

def Configuration.PollingEnabled (c : Configuration) : Bool :=
  decide (c.ClientPollingInterval > 0)

def Configuration.PollingInterval (c : Configuration) : Int :=
  c.ClientPollingInterval

/-- Outbound client for http communication. -/
structure Outbound where
  baseURI : String
  client : HttpClient
  headerProvider : List HeaderCallback

def NewHTTP (cfg : Configuration) : Outbound :=
  let client : HttpClient :=
    match cfg.Client with
    | none => { Timeout := 10 * second }
    | some c => c
  { headerProvider := cfg.Callbacks, baseURI := cfg.BaseURI, client := client }

/-! ## The bulk provider (`bulk_provider.go`) -/

def providerName : String := "OFREP Bulk Provider"

/-- The reserved attribute name `of.TargetingKey`. -/
def TargetingKey : String := "targetingKey"

/-- An `of.EvaluationContext`: targeting key and attributes. -/
structure EvaluationContext where
  targetingKey : String
  attributes : GoMap

abbrev FlattenedContext := GoMap

def FlattenContext (evalCtx : EvaluationContext) : FlattenedContext :=
  let flatCtx := evalCtx.attributes
  if evalCtx.targetingKey ≠ "" then
    flatCtx.set TargetingKey (Value.string evalCtx.targetingKey)
  else
    flatCtx

/-- Modelled from the spec: the type `evaluate.BulkEvaluator` is not among the
sources; only its constructor call `evaluate.NewBulkEvaluator(client, flatCtx)`
and its method `Fetch` are visible. The evaluator is the snapshot reference of
the provider; it records what it was built from. -/
structure BulkEvaluator where
  client : Outbound
  evalCtx : FlattenedContext

/-- Modelled from the spec: the constructor `evaluate.NewBulkEvaluator`, which is
not among the sources. -/
def NewBulkEvaluator (client : Outbound) (evalCtx : FlattenedContext) : BulkEvaluator :=
  { client := client, evalCtx := evalCtx }

/-- The fields of `BulkProvider`; `evaluator` is the field of the embedded
`Provider`, `cancelFunc` names the context it cancels. The mutex is implicit:
each operation below is one critical section. -/
structure BulkProvider where
  evaluator : Option BulkEvaluator
  cfg : Configuration
  state : State
  events : EventChan
  cancelFunc : Option Context

/-- A functional option `func(*outbound.Configuration)`. -/
abbrev ProviderOption := Configuration → Configuration

def NewBulkProvider (baseURI : String) (options : List ProviderOption) : BulkProvider :=
  let cfg : Configuration :=
    { BaseURI := baseURI, Callbacks := [], Client := none,
      ClientPollingInterval := 30 * second }
  let cfg := options.foldl (fun c option => option c) cfg
  { evaluator := none, events := { cap := 3, buf := [] }, cfg := cfg,
    state := State.NotReadyState, cancelFunc := none }

def BulkProvider.Status (p : BulkProvider) : State :=
  p.state

/-- The goroutine started by `startPolling`: the context it watches, the
evaluator it fetches with and the ticker period. -/
structure Poller where
  ctx : Context
  evaluator : BulkEvaluator
  pollingInterval : Int

/-- The call `p.startPolling(ctx, evaluator, interval)`: it only launches the
goroutine; the loop body is `pollTick` below. -/
def startPolling (ctx : Context) (evaluator : BulkEvaluator) (pollingInterval : Int) : Poller :=
  { ctx := ctx, evaluator := evaluator, pollingInterval := pollingInterval }

/-- What one call of `Init` did: the provider afterwards, the returned error,
the number of `evaluator.Fetch` calls made and the goroutine launched. -/
structure InitResult where
  provider : BulkProvider
  err : Option GoError
  fetches : Nat
  poller : Option Poller

/-- `BulkProvider.Init`. `ctx` is the context returned by `context.WithCancel`
and `fetch` the result of `evaluator.Fetch(ctx)`, should the call get there. -/
def BulkProvider.Init (p : BulkProvider) (evalCtx : EvaluationContext) (ctx : Context)
    (fetch : Option GoError) : InitResult :=
  if p.state ≠ State.NotReadyState then
    -- avoid reinitialization if initialized
    { provider := p, err := none, fetches := 0, poller := none }
  else
    let p := { p with cancelFunc := some ctx }
    let client := NewHTTP p.cfg
    let flatCtx := FlattenContext evalCtx
    let p := { p with state := State.ReadyState }
    let evaluator := NewBulkEvaluator client flatCtx
    let err := fetch
    let (err, p) :=
      match err with
      | some e => (some (wrapFetchError e), { p with state := State.ErrorState })
      | none => (none, p)
    let poller :=
      if p.cfg.PollingEnabled then
        some (startPolling ctx evaluator p.cfg.PollingInterval)
      else none
    let p := { p with evaluator := some evaluator }
    { provider := p, err := err, fetches := 1, poller := poller }

/-- What one call of `Shutdown` did: the provider afterwards and the context
whose cancel function was called, if there was one. -/
structure ShutdownResult where
  provider : BulkProvider
  cancelled : Option Context

/-- `BulkProvider.Shutdown`. It has no result to return and no failing path. -/
def BulkProvider.Shutdown (p : BulkProvider) : ShutdownResult :=
  let (cancelled, p) :=
    match p.cancelFunc with
    | some c => (some c, { p with cancelFunc := none })
    | none => (none, p)
  let p := { p with state := State.NotReadyState }
  let p := { p with evaluator := none }
  { provider := p, cancelled := cancelled }

/-- The effect of code that ends in a channel send: the provider afterwards,
the events handed to `p.events <- ...` in order, and whether the goroutine is
parked on the send because the buffer was full. -/
structure Sent where
  provider : BulkProvider
  emitted : List Event
  parked : Bool

/-- The statement `p.events <- e`. -/
def BulkProvider.emit (p : BulkProvider) (e : Event) : Sent :=
  match p.events.send e with
  | some ch => { provider := { p with events := ch }, emitted := [e], parked := false }
  | none => { provider := p, emitted := [e], parked := true }

/-- `BulkProvider.setState`: the state is written under the lock, then the
event is sent. -/
def BulkProvider.setState (p : BulkProvider) (state : State) (eventType : EventType)
    (message : String) : Sent :=
  let p := { p with state := state }
  p.emit { ProviderName := providerName, EventType := eventType, Message := message }

/-- How one pass of the polling loop ends: the loop goes on to its next
`select`, the goroutine returns, or it is parked on a channel send. -/
inductive LoopStatus where
  | next
  | returned
  | parked
  deriving DecidableEq, Repr

/-- The effect of one pass of the polling loop. -/
structure TickResult where
  provider : BulkProvider
  emitted : List Event
  status : LoopStatus

def Sent.toTick (s : Sent) : TickResult :=
  { provider := s.provider, emitted := s.emitted,
    status := if s.parked then LoopStatus.parked else LoopStatus.next }

/-- The part of a tick after `oldState` has been read: the two `switch`
statements of `startPolling`, for a fetch result that is not a cancellation. -/
def pollAct (p : BulkProvider) (oldState : State) (err : Option GoError) : TickResult :=
  match err with
  | some e =>
    match oldState with
    | State.ReadyState => (p.setState State.StaleState EventType.ProviderStale e.msg).toTick
    | State.StaleState => (p.setState State.StaleState EventType.ProviderStale e.msg).toTick
    | State.ErrorState => (p.setState State.ErrorState EventType.ProviderError e.msg).toTick
    | State.NotReadyState => { provider := p, emitted := [], status := LoopStatus.next }
  | none =>
    match oldState with
    | State.ReadyState =>
      (p.emit { ProviderName := providerName, EventType := EventType.ProviderConfigChange,
                Message := "Flags is updated" }).toTick
    | _ => (p.setState State.ReadyState EventType.ProviderReady "Provider is ready").toTick

/-- The `case <-ticker.C` branch of the loop in `startPolling`; `err` is the
result of `evaluator.Fetch(ctx)`. -/
def pollTick (p : BulkProvider) (err : Option GoError) : TickResult :=
  if isCanceled err then
    -- shutdown
    { provider := p, emitted := [], status := LoopStatus.returned }
  else
    let oldState := p.state
    pollAct p oldState err

/-- Which case of the `select` fires in one pass of the loop. -/
inductive Select where
  | done
  | tick (err : Option GoError)

/-- One pass of the `for { select { ... } }` loop of `startPolling`. -/
def pollSelect (p : BulkProvider) : Select → TickResult
  | Select.done => { provider := p, emitted := [], status := LoopStatus.returned }
  | Select.tick err => pollTick p err

/-! ## Numeric conversions of Go -/

def int64Min : Int := -(2 ^ 63)

def int64Max : Int := 2 ^ 63 - 1

/-- Wrap of an integer into the range of `int64` (two-complement arithmetic). -/
def wrapInt64 (i : Int) : Int := (i + 2 ^ 63) % 2 ^ 64 - 2 ^ 63

/-- The exact value of the finite float `m * 2 ^ e`. -/
def GoFloat.finVal (m e : Int) : ℚ := (m : ℚ) * (2 : ℚ) ^ e

/-- The value has no fractional part. -/
def GoFloat.integral (m e : Int) : Prop := ∃ z : Int, (z : ℚ) = GoFloat.finVal m e

/-- A finite binary64 number: the significand has at most 53 bits and the
exponent of its last bit is between -1074 and 971. -/
def GoFloat.isFloat64 : GoFloat → Prop
  | GoFloat.fin m e => m.natAbs < 2 ^ 53 ∧ -1074 ≤ e ∧ e ≤ 971
  | _ => True

/-- The integer part of a finite float, rounded toward zero. -/
def GoFloat.trunc : GoFloat → Option Int
  | GoFloat.fin m e => some (if 0 ≤ e then m * 2 ^ e.toNat else Int.tdiv m (2 ^ (-e).toNat))
  | _ => none

/-- Go `int64(f)` for a `float64` f: the value truncated toward zero when that
fits `int64`. Otherwise (too large, an infinity, not-a-number) the language
leaves the result to the implementation; `oor` is that choice. -/
def GoFloat.toInt64 (oor : GoFloat → Int) (f : GoFloat) : Int :=
  match f.trunc with
  | some t => if int64Min ≤ t ∧ t ≤ int64Max then t else wrapInt64 (oor f)
  | none => wrapInt64 (oor f)

/-- The choice of amd64 (`CVTTSD2SQ`): the "integer indefinite" value. -/
def amd64 : GoFloat → Int := fun _ => int64Min

/-- The choice of arm64 (`FCVTZS`): saturation, and 0 for not-a-number. -/
def arm64 : GoFloat → Int
  | GoFloat.nan => 0
  | GoFloat.inf neg => if neg then int64Min else int64Max
  | GoFloat.fin m _ => if m < 0 then int64Min else int64Max

/-- Go `float64(n)` for an `int64` n: exact below 2^53, otherwise rounded to 53
significant bits, ties to even. -/
def GoFloat.ofInt64 (n : Int) : GoFloat :=
  let a := n.natAbs
  if a < 2 ^ 53 then GoFloat.fin n 0
  else
    let k := Nat.log2 a - 52
    let q := a / 2 ^ k
    let r := a % 2 ^ k
    let half := 2 ^ (k - 1)
    let q := if half < r ∨ (r = half ∧ q % 2 = 1) then q + 1 else q
    GoFloat.fin (n.sign * q) k

/-- Go `a == b` on floats: equality of values; not-a-number equals nothing. -/
def GoFloat.eq : GoFloat → GoFloat → Bool
  | GoFloat.fin m1 e1, GoFloat.fin m2 e2 =>
    let e := min e1 e2
    decide (m1 * 2 ^ (e1 - e).toNat = m2 * 2 ^ (e2 - e).toNat)
  | GoFloat.inf a, GoFloat.inf b => a == b
  | _, _ => false

/-! ## Typed resolution (`internal/evaluate/flags.go`) -/

/-- An `of.ResolutionError`: error code and message; the zero value means no
error. -/
structure ResolutionError where
  code : String
  message : String
  deriving DecidableEq, Repr

/-- The zero value of `of.ResolutionError`. -/
def noError : ResolutionError := { code := "", message := "" }

def TypeMismatchCode : String := "TYPE_MISMATCH"

def NewTypeMismatchResolutionError (msg : String) : ResolutionError :=
  { code := TypeMismatchCode, message := msg }

abbrev Reason := String

def ErrorReason : Reason := "ERROR"

def DisabledReason : Reason := "DISABLED"

def DefaultReason : Reason := "DEFAULT"

abbrev FlagMetadata := GoMap

/-- The nil map. -/
def GoMap.empty : GoMap := fun _ => none

structure ProviderResolutionDetail where
  ResolutionError : ResolutionError
  Reason : Reason
  Variant : String
  FlagMetadata : FlagMetadata

/-- Modelled from the spec: the type `successDto` is not among the sources; these
are the four fields `resolve` reads. -/
structure successDto where
  Value : Value
  Reason : String
  Variant : String
  Metadata : FlagMetadata

/-- The interface `resolver`: its one method `resolveSingle` returns a pair of
pointers, each possibly nil. -/
structure resolver where
  resolveSingle : Context → String → GoMap → Option successDto × Option ResolutionError

/-- Flags is the flag evaluator implementation. -/
structure Flags where
  resolver : resolver

abbrev convertFunc (T : Type) := Value → T × Bool

/-- A Go type that can instantiate `convertDefault`: its zero value and the
type assertion `v.(T)`. -/
class GoType (T : Type) where
  zero : T
  assert : Value → Option T

instance : GoType Bool where
  zero := false
  assert := fun v => match v with
    | Value.bool b => some b
    | _ => none

instance : GoType String where
  zero := ""
  assert := fun v => match v with
    | Value.string s => some s
    | _ => none

/-- The type `interface{}`: the assertion `v.(interface{})` holds for every
non-nil value. -/
instance : GoType Value where
  zero := Value.null
  assert := fun v => match v with
    | Value.null => none
    | w => some w

def convertDefault {T : Type} [GoType T] (v : Value) : T × Bool :=
  match GoType.assert v with
  | some b => (b, true)
  | none => (GoType.zero, false)

def convertToFloat64 (v : Value) : GoFloat × Bool :=
  match v with
  | Value.float32 v => (v, true)
  | Value.float64 v => (v, true)
  | _ => (GoFloat.fin 0 0, false)

/-- `convertToInt64`; `oor` is the implementation's choice in `int64(v)`. -/
def convertToInt64 (oor : GoFloat → Int) (v : Value) : Int × Bool :=
  match v with
  | Value.int v => (v, true)
  | Value.int64 v => (v, true)
  | Value.float64 v =>
    let value := GoFloat.toInt64 oor v
    if !(GoFloat.eq (GoFloat.ofInt64 value) v) then
      (0, false)
    else
      (value, true)
  | _ => (0, false)

/-- The text `fmt.Sprintf("resolved value %v is not of %T type", v, d)`; the
renderings of `%v` and `%T` are those of package `fmt`, taken as given. -/
def mismatchMessage {T : Type} (fmtV : Value → String) (fmtT : T → String) (v : Value)
    (d : T) : String :=
  "resolved value " ++ fmtV v ++ " is not of " ++ fmtT d ++ " type"

/-- The generic `resolve`. The result is `none` when the code dereferences a nil
`evalSuccess` (the resolver returned no error and no success). -/
def resolve {T : Type} (fmtV : Value → String) (fmtT : T → String) (ctx : Context)
    (resolver : resolver) (key : String) (defaultValue : T) (evalCtx : GoMap)
    (convert : convertFunc T) : Option (T × ProviderResolutionDetail) :=
  let (evalSuccess, resolutionError) := resolver.resolveSingle ctx key evalCtx
  match resolutionError with
  | some resolutionError =>
    some (defaultValue,
      { ResolutionError := resolutionError, Reason := ErrorReason,
        Variant := "", FlagMetadata := GoMap.empty })
  | none =>
    match evalSuccess with
    | none => none
    | some evalSuccess =>
      if evalSuccess.Reason = DisabledReason then
        some (defaultValue,
          { ResolutionError := noError, Reason := DisabledReason,
            Variant := evalSuccess.Variant, FlagMetadata := evalSuccess.Metadata })
      else
        let (b, ok) := convert evalSuccess.Value
        if !ok then
          some (defaultValue,
            { ResolutionError := NewTypeMismatchResolutionError
                (mismatchMessage fmtV fmtT evalSuccess.Value defaultValue),
              Reason := ErrorReason, Variant := "", FlagMetadata := GoMap.empty })
        else
          some (b,
            { ResolutionError := noError, Reason := evalSuccess.Reason,
              Variant := evalSuccess.Variant, FlagMetadata := evalSuccess.Metadata })

/-- The `of.XxxResolutionDetail` structs: a value and the provider detail. -/
structure ResolutionDetail (T : Type) where
  Value : T
  ProviderResolutionDetail : ProviderResolutionDetail

def ResolutionDetail.ofPair {T : Type} (r : T × Ofrep.ProviderResolutionDetail) :
    ResolutionDetail T :=
  { Value := r.1, ProviderResolutionDetail := r.2 }

def Flags.ResolveBoolean (h : Flags) (fmtV : Value → String) (ctx : Context) (key : String)
    (defaultValue : Bool) (evalCtx : GoMap) : Option (ResolutionDetail Bool) :=
  (resolve fmtV (fun _ => "bool") ctx h.resolver key defaultValue evalCtx convertDefault).map
    ResolutionDetail.ofPair

def Flags.ResolveString (h : Flags) (fmtV : Value → String) (ctx : Context) (key : String)
    (defaultValue : String) (evalCtx : GoMap) : Option (ResolutionDetail String) :=
  (resolve fmtV (fun _ => "string") ctx h.resolver key defaultValue evalCtx convertDefault).map
    ResolutionDetail.ofPair

def Flags.ResolveFloat (h : Flags) (fmtV : Value → String) (ctx : Context) (key : String)
    (defaultValue : GoFloat) (evalCtx : GoMap) : Option (ResolutionDetail GoFloat) :=
  (resolve fmtV (fun _ => "float64") ctx h.resolver key defaultValue evalCtx convertToFloat64).map
    ResolutionDetail.ofPair

def Flags.ResolveInt (h : Flags) (oor : GoFloat → Int) (fmtV : Value → String) (ctx : Context)
    (key : String) (defaultValue : Int) (evalCtx : GoMap) : Option (ResolutionDetail Int) :=
  (resolve fmtV (fun _ => "int64") ctx h.resolver key defaultValue evalCtx
    (convertToInt64 oor)).map ResolutionDetail.ofPair

def Flags.ResolveObject (h : Flags) (fmtV : Value → String) (fmtT : Value → String)
    (ctx : Context) (key : String) (defaultValue : Value) (evalCtx : GoMap) :
    Option (ResolutionDetail Value) :=
  (resolve fmtV fmtT ctx h.resolver key defaultValue evalCtx convertDefault).map
    ResolutionDetail.ofPair

/-! ## The polling goroutine and the consumer of the events -/

/-- What happens around the polling goroutine, in order: one pass of its loop,
or the consumer of `EventChannel()` receiving one event. -/
inductive Step where
  | pass (s : Select)
  | receive

/-- The polling goroutine together with the provider it drives: where the
goroutine stands, the event of the send it is parked on, and two records of
what it did so far: the events it handed to the channel and the fetch results
of the ticks it ran, both in order. -/
structure LoopState where
  provider : BulkProvider
  status : LoopStatus
  pending : Option Event
  emitted : List Event
  ticks : List (Option GoError)

/-- The goroutine right after `startPolling`: at its first `select`. -/
def LoopState.start (p : BulkProvider) : LoopState :=
  { provider := p, status := LoopStatus.next, pending := none, emitted := [], ticks := [] }

/-- The fetch result a pass of the loop has, if the pass is a tick. -/
def Select.fetched : Select → List (Option GoError)
  | Select.done => []
  | Select.tick err => [err]

/-- One step. A pass runs only when the goroutine is at its `select` (it has
not returned and is not parked on a send). A receive takes the oldest queued
event; the event of a parked send then enters the buffer and the goroutine
goes on to its next `select`. -/
def LoopState.step (l : LoopState) : Step → LoopState
  | Step.pass s =>
    if l.status = LoopStatus.next then
      let r := pollSelect l.provider s
      { provider := r.provider, status := r.status,
        pending := if r.status = LoopStatus.parked then r.emitted.getLast? else none,
        emitted := l.emitted ++ r.emitted, ticks := l.ticks ++ s.fetched }
    else l
  | Step.receive =>
    match l.provider.events.buf, l.pending with
    | [], none => l
    | [], some _ => { l with status := LoopStatus.next, pending := none }
    | _ :: rest, none =>
      { l with provider := { l.provider with events := { l.provider.events with buf := rest } } }
    | _ :: rest, some e =>
      { l with
        provider := { l.provider with events := { l.provider.events with buf := rest ++ [e] } },
        status := LoopStatus.next, pending := none }

/-- A run of steps, in order. -/
def LoopState.run (l : LoopState) (steps : List Step) : LoopState :=
  steps.foldl LoopState.step l

/-- A step that is a receive or a tick whose fetch was not cancelled. -/
def Step.notCancelled : Step → Prop
  | Step.pass (Select.tick err) => isCanceled err = false
  | Step.pass Select.done => False
  | Step.receive => True

/-! ## The provider as a transition system -/

/-- The three operations that change a provider: `Init` (with the context it
creates and the result of its fetch), a tick of a polling loop (with the result
of its fetch) and `Shutdown`. A tick here reacts to the state as it is when its
fetch returns, with nothing running in between; `Machine` below has the ticks
that `Init` and `Shutdown` interleave with. -/
inductive Action where
  | init (evalCtx : EvaluationContext) (ctx : Context) (fetch : Option GoError)
  | tick (err : Option GoError)
  | shutdown

/-- The provider after one operation. -/
def BulkProvider.act (p : BulkProvider) : Action → BulkProvider
  | Action.init evalCtx ctx fetch => (p.Init evalCtx ctx fetch).provider
  | Action.tick err => (pollTick p err).provider
  | Action.shutdown => p.Shutdown.provider

/-- The provider after a list of operations, in order. -/
def BulkProvider.runActions (p : BulkProvider) (actions : List Action) : BulkProvider :=
  actions.foldl BulkProvider.act p

/-! ## Ticks in flight

Between the return of `evaluator.Fetch`, the read of `p.state` (under the read
lock) and the write in `setState` (under a later write lock) a tick holds no
lock, so `Init` and `Shutdown` can run in between. -/

/-- A tick in flight in a polling goroutine: after its fetch has returned with
a result that is not a cancellation, and after it has also read `p.state`. -/
inductive Flight where
  | fetched (err : Option GoError)
  | read (oldState : State) (err : Option GoError)
  deriving DecidableEq, Repr

/-- The provider, the ticks in flight, and the record of whether a fetch has
returned with success since the most recent `Init` that ran (an `Init` that
returns at its guard runs nothing and fetches nothing). -/
structure Machine where
  provider : BulkProvider
  flights : List Flight
  fetched : Bool

/-- What can happen next: `Init`, `Shutdown`, the fetch of a tick returning, a
tick in flight reading the state, a tick in flight running its switch. -/
inductive Op where
  | init (evalCtx : EvaluationContext) (ctx : Context) (fetch : Option GoError)
  | shutdown
  | fetch (err : Option GoError)
  | read (i : Nat)
  | write (i : Nat)

/-- A provider with no tick in flight and nothing fetched. -/
def Machine.new (p : BulkProvider) : Machine :=
  { provider := p, flights := [], fetched := false }

/-- One step. An `Init` that runs restarts the record with the result of its
own fetch; a fetch that returns success sets it, a cancelled one ends its
goroutine; a read stores the state it sees; a write runs the switches of
`startPolling` on the stored state. -/
def Machine.step (m : Machine) : Op → Machine
  | Op.init evalCtx ctx fetch =>
    { m with
      provider := (m.provider.Init evalCtx ctx fetch).provider,
      fetched := if m.provider.state = State.NotReadyState then fetch.isNone else m.fetched }
  | Op.shutdown => { m with provider := m.provider.Shutdown.provider }
  | Op.fetch err =>
    if isCanceled err then m
    else { m with flights := m.flights ++ [Flight.fetched err],
                  fetched := m.fetched || err.isNone }
  | Op.read i =>
    match m.flights.get? i with
    | some (Flight.fetched err) =>
      { m with flights := m.flights.set i (Flight.read m.provider.state err) }
    | _ => m
  | Op.write i =>
    match m.flights.get? i with
    | some (Flight.read oldState err) =>
      { m with provider := (pollAct m.provider oldState err).provider,
               flights := m.flights.eraseIdx i }
    | _ => m

/-- A run of steps, in order. -/
def Machine.run (m : Machine) (ops : List Op) : Machine :=
  ops.foldl Machine.step m

/-! ## The request of `sendRequest` (`internal/outbound/http.go`) -/

/-- An `http.Header`: for each stored key its list of values. -/
abbrev Header := String → Option (List String)

/-- The header of a new request: no key is set. -/
def Header.empty : Header := fun _ => none

/-- Go `h.Set(key, value)`: the values under the canonical form of the key are
replaced by the one value. `canon` is `textproto.CanonicalMIMEHeaderKey`. -/
def Header.Set (canon : String → String) (h : Header) (key value : String) : Header :=
  fun k => if k = canon key then some [value] else h k

/-- An `http.Request` as `sendRequest` builds it. -/
structure Request where
  ctx : Context
  Method : String
  URL : String
  Body : String
  Header : Header

/-- What `h.client.Do(req)` gives back: status code, headers, and the result of
reading the body. -/
structure Response where
  StatusCode : Int
  Header : Header
  Body : Except GoError String

structure Resolution where
  Data : String
  Status : Int
  Headers : Header

/-- The loop `for _, callback := range h.headerProvider` of `sendRequest`. -/
def Outbound.setHeaders (h : Outbound) (canon : String → String) (req : Request) : Request :=
  h.headerProvider.foldl
    (fun req callback =>
      { req with Header := req.Header.Set canon (callback ()).1 (callback ()).2 })
    req

/-- `Outbound.sendRequest`. `newRequest` is the error of
`http.NewRequestWithContext`, if any, and `transport` stands for
`h.client.Do`. -/
def Outbound.sendRequest (h : Outbound) (canon : String → String)
    (newRequest : Option GoError) (transport : Request → Except GoError Response)
    (ctx : Context) (path : String) (payload : String) : Except GoError Resolution :=
  match newRequest with
  | some err =>
    Except.error { msg := "GENERAL: request building error: " ++ err.msg, canceled := false }
  | none =>
    let req : Request :=
      { ctx := ctx, Method := "POST", URL := path, Body := payload, Header := Header.empty }
    let req := h.setHeaders canon req
    match transport req with
    | Except.error err =>
      Except.error { msg := "failed to make a request: " ++ err.msg, canceled := err.canceled }
    | Except.ok rsp =>
      match rsp.Body with
      | Except.error err =>
        Except.error { msg := "failed to read the body: " ++ err.msg, canceled := err.canceled }
      | Except.ok b => Except.ok { Data := b, Status := rsp.StatusCode, Headers := rsp.Header }

/-! ## Sample data -/

/-- The evaluation context of the test-suite: targeting key "keyboard",
attribute color = "red". -/
def sampleEvalCtx : EvaluationContext :=
  { targetingKey := "keyboard",
    attributes := GoMap.empty.set "color" (Value.string "red") }

/-- A provider as the test-suite builds it: polling every 30 ms. -/
def sampleProvider : BulkProvider :=
  NewBulkProvider "http://localhost" [fun c => { c with ClientPollingInterval := 30 * millisecond }]

/-- A fetch failure that is not a cancellation (the server answered 500). -/
def sampleFailure : GoError := { msg := "unexpected status 500", canceled := false }

/-- The fetch failure of a cancelled context. -/
def sampleCanceled : GoError := { msg := "context canceled", canceled := true }

/-- The sample provider with its state field set. -/
def sampleIn (s : State) : BulkProvider := { sampleProvider with state := s }

/-- The event of a tick that makes the provider ready. -/
def readyEvent : Event :=
  { ProviderName := providerName, EventType := EventType.ProviderReady,
    Message := "Provider is ready" }

/-- The event of a successful tick of a ready provider. -/
def configChangeEvent : Event :=
  { ProviderName := providerName, EventType := EventType.ProviderConfigChange,
    Message := "Flags is updated" }

/-- The event of a failed tick: its message is the text of the error. -/
def failureEvent (t : EventType) (e : GoError) : Event :=
  { ProviderName := providerName, EventType := t, Message := e.msg }

/-- The sample provider after a successful `Init` followed by `Shutdown`. -/
def afterShutdown : BulkProvider :=
  (sampleProvider.Init sampleEvalCtx 1 none).provider.Shutdown.provider

/-- A resolver that answers every key with the same pair. -/
def constResolver (s : Option successDto) (e : Option ResolutionError) : resolver :=
  { resolveSingle := fun _ _ _ => (s, e) }

/-- A snapshot entry: a disabled flag whose stored value is a string. -/
def disabledDto : successDto :=
  { Value := Value.string "on", Reason := "DISABLED", Variant := "v1", Metadata := GoMap.empty }

/-- The entry `flag-bool` of the test server: value true, reason DEFAULT,
variant "true", empty metadata. -/
def flagBoolDto : successDto :=
  { Value := Value.bool true, Reason := "DEFAULT", Variant := "true", Metadata := GoMap.empty }

/-- The entry `flag-error` of the test server as the resolver reports it. -/
def flagError : ResolutionError := { code := "GENERAL", message := "something wrong" }

/-- A rendering of `%v`, enough for the sample data. -/
def sampleFmtV : Value → String
  | Value.bool true => "true"
  | Value.bool false => "false"
  | Value.string s => s
  | _ => "?"

/-- The sample provider after a successful `Init` and three successful ticks
that no consumer has received: its event channel is full. -/
def sampleFull : BulkProvider :=
  ((LoopState.start (sampleProvider.Init sampleEvalCtx 1 none).provider).run
    [Step.pass (Select.tick none), Step.pass (Select.tick none),
     Step.pass (Select.tick none)]).provider

/-- A snapshot entry whose stored value is a native int. -/
def intDto : successDto :=
  { Value := Value.int 3, Reason := "STATIC", Variant := "three", Metadata := GoMap.empty }

/-- A snapshot entry whose stored value is nil. -/
def nullDto : successDto :=
  { Value := Value.null, Reason := "STATIC", Variant := "none", Metadata := GoMap.empty }

/-- A snapshot entry whose stored value is an object. -/
def objectDto : successDto :=
  { Value := Value.object [("size", Value.int 3)], Reason := "STATIC", Variant := "obj",
    Metadata := GoMap.empty }

/-- A rendering of `%T` for a default of type `interface{}`. -/
def sampleFmtT : Value → String
  | Value.null => "<nil>"
  | Value.bool _ => "bool"
  | Value.string _ => "string"
  | _ => "?"

/-- Two header callbacks for the same header and one for another. -/
def sampleCallbacks : List HeaderCallback :=
  [fun _ => ("Authorization", "Bearer old"), fun _ => ("X-Trace", "1"),
   fun _ => ("Authorization", "Bearer api-key")]

/-- An outbound client with the sample callbacks. -/
def sampleOutbound : Outbound :=
  NewHTTP { BaseURI := "http://localhost", Callbacks := sampleCallbacks, Client := none,
            ClientPollingInterval := 0 }

/-- A request with an empty header. -/
def sampleRequest : Request :=
  { ctx := 1, Method := "POST", URL := "http://localhost/ofrep/v1/evaluate/flags",
    Body := "", Header := Header.empty }

/-- A tick of the first loop reads Ready after a failed fetch, then `Shutdown`
and an `Init` whose fetch fails run, then the tick writes. -/
def staleRace : List Op :=
  [Op.init sampleEvalCtx 1 none, Op.fetch (some sampleFailure), Op.read 0, Op.shutdown,
   Op.init sampleEvalCtx 2 (some sampleFailure), Op.write 0]

/-- A transport that answers 200 and sends the request headers back. -/
def echoTransport : Request → Except GoError Response :=
  fun req => Except.ok { StatusCode := 200, Header := req.Header, Body := Except.ok "" }

/-! ## Lemmas -/

/-- A send hands exactly its event to the channel. -/
theorem emit_emitted (p : BulkProvider) (e : Event) : (p.emit e).emitted = [e] := by
  unfold BulkProvider.emit
  split <;> rfl

/-- A send does not touch the state. -/
theorem emit_state (p : BulkProvider) (e : Event) : (p.emit e).provider.state = p.state := by
  unfold BulkProvider.emit
  split <;> rfl

theorem natAbs_mul_two_pow (m : Int) (n : Nat) : (m * 2 ^ n).natAbs = m.natAbs * 2 ^ n := by
  rw [Int.natAbs_mul, Int.natAbs_pow]
  rfl

theorem sign_mul_two_pow (m : Int) (n : Nat) : (m * 2 ^ n).sign = m.sign := by
  rw [Int.sign_mul]
  have h : (0 : Int) < 2 ^ n := by positivity
  rw [Int.sign_eq_one_of_pos h, mul_one]

/-- Converting an integer with at most 53 significant bits to `float64` is exact. -/
theorem ofInt64_exact (m : Int) (n : Nat) (hm : m.natAbs < 2 ^ 53) :
    GoFloat.eq (GoFloat.ofInt64 (m * 2 ^ n)) (GoFloat.fin m n) = true := by
  unfold GoFloat.ofInt64
  simp only [natAbs_mul_two_pow, sign_mul_two_pow]
  by_cases h : m.natAbs * 2 ^ n < 2 ^ 53
  · rw [if_pos h]
    simp [GoFloat.eq]
  · simp only [h, if_false]
    have ha : m.natAbs * 2 ^ n ≠ 0 := by
      intro h0
      apply h
      rw [h0]
      positivity
    have hlt : m.natAbs * 2 ^ n < 2 ^ (53 + n) := by
      rw [pow_add]
      exact Nat.mul_lt_mul_of_lt_of_le hm (le_refl _) (by positivity)
    have hlog : (m.natAbs * 2 ^ n).log2 < 53 + n := (Nat.log2_lt ha).2 hlt
    have hge : 53 ≤ (m.natAbs * 2 ^ n).log2 := by
      by_contra hc
      apply h
      have : (m.natAbs * 2 ^ n).log2 < 53 := by omega
      exact (Nat.log2_lt ha).1 this
    generalize hk : (m.natAbs * 2 ^ n).log2 - 52 = k
    have hkn : k ≤ n := by omega
    have hk1 : 1 ≤ k := by omega
    obtain ⟨j, rfl⟩ : ∃ j, n = j + k := ⟨n - k, by omega⟩
    have hsplit : m.natAbs * 2 ^ (j + k) = (m.natAbs * 2 ^ j) * 2 ^ k := by
      rw [pow_add, mul_assoc]
    have hpos : 0 < 2 ^ k := by positivity
    have hr : m.natAbs * 2 ^ (j + k) % 2 ^ k = 0 := by
      rw [hsplit]
      exact Nat.mul_mod_left _ _
    have hq : m.natAbs * 2 ^ (j + k) / 2 ^ k = m.natAbs * 2 ^ j := by
      rw [hsplit]
      exact Nat.mul_div_cancel _ hpos
    have hhalf : 0 < 2 ^ (k - 1) := by positivity
    have hne : ¬ (2 ^ (k - 1) < 0 ∨ (0 = 2 ^ (k - 1) ∧ m.natAbs * 2 ^ j % 2 = 1)) := by
      rintro (h1 | ⟨h1, _⟩) <;> omega
    rw [hr, hq, if_neg hne]
    simp only [GoFloat.eq]
    have hmin : min (k : Int) ((j + k : Nat) : Int) = k := by
      apply min_eq_left
      push_cast
      omega
    rw [hmin]
    have e1 : ((k : Int) - k).toNat = 0 := by simp
    have e2 : (((j + k : Nat) : Int) - k).toNat = j := by
      push_cast
      simp
    rw [e1, e2]
    simp only [pow_zero, mul_one, decide_eq_true_eq]
    push_cast
    rw [← mul_assoc, Int.sign_mul_abs]

/-- A float64 whose exponent is not negative converts when it fits `int64`. -/
theorem convertToInt64_of_nonneg_exp (oor : GoFloat → Int) (m : Int) (n : Nat)
    (hm : m.natAbs < 2 ^ 53) (hlo : int64Min ≤ m * 2 ^ n) (hhi : m * 2 ^ n ≤ int64Max) :
    convertToInt64 oor (Value.float64 (GoFloat.fin m n)) = (m * 2 ^ n, true) := by
  have ht : GoFloat.toInt64 oor (GoFloat.fin m n) = m * 2 ^ n := by
    simp [GoFloat.toInt64, GoFloat.trunc, hlo, hhi]
  simp only [convertToInt64, ht, ofInt64_exact m n hm]
  simp

/-- Truncating division does not increase the magnitude. -/
theorem natAbs_tdiv_le (m d : Int) : (m.tdiv d).natAbs ≤ m.natAbs := by
  rw [Int.natAbs_tdiv]
  exact Nat.div_le_self _ _

theorem int64_range_of_natAbs (t : Int) (h : t.natAbs < 2 ^ 53) :
    int64Min ≤ t ∧ t ≤ int64Max := by
  unfold int64Min int64Max
  norm_num at h ⊢
  omega

/-- A float64 with a negative exponent converts exactly when the significand is
a multiple of the matching power of two. -/
theorem convertToInt64_of_neg_exp (oor : GoFloat → Int) (m e : Int)
    (hm : m.natAbs < 2 ^ 53) (he : e < 0) :
    convertToInt64 oor (Value.float64 (GoFloat.fin m e)) =
      if ((2 : Int) ^ (-e).toNat) ∣ m then (m.tdiv (2 ^ (-e).toNat), true) else (0, false) := by
  have hlt : (m.tdiv (2 ^ (-e).toNat)).natAbs < 2 ^ 53 :=
    lt_of_le_of_lt (natAbs_tdiv_le _ _) hm
  have hr := int64_range_of_natAbs _ hlt
  have hne : ¬ (0 ≤ e) := not_le.mpr he
  have ht : GoFloat.toInt64 oor (GoFloat.fin m e) = m.tdiv (2 ^ (-e).toNat) := by
    simp only [GoFloat.toInt64, GoFloat.trunc, if_neg hne]
    rw [if_pos hr]
  have hof : GoFloat.ofInt64 (m.tdiv (2 ^ (-e).toNat)) =
      GoFloat.fin (m.tdiv (2 ^ (-e).toNat)) 0 := by
    unfold GoFloat.ofInt64
    simp only []
    rw [if_pos hlt]
  have hmin : min (0 : Int) e = e := min_eq_right (le_of_lt he)
  have heq : GoFloat.eq (GoFloat.fin (m.tdiv (2 ^ (-e).toNat)) 0) (GoFloat.fin m e) =
      decide (((2 : Int) ^ (-e).toNat) ∣ m) := by
    simp only [GoFloat.eq, hmin, sub_self, Int.toNat_zero, pow_zero, mul_one, zero_sub]
    congr 1
    apply propext
    constructor
    · intro h
      exact Dvd.intro_left _ h
    · intro h
      exact Int.tdiv_mul_cancel h
  simp only [convertToInt64, ht, hof, heq]
  by_cases hd : ((2 : Int) ^ (-e).toNat) ∣ m <;> simp [hd]

theorem finVal_of_nonneg (m : Int) (n : Nat) :
    GoFloat.finVal m n = ((m * 2 ^ n : Int) : ℚ) := by
  simp [GoFloat.finVal]

theorem finVal_of_neg (m e : Int) (he : e < 0) :
    GoFloat.finVal m e * (((2 : Int) ^ (-e).toNat : Int) : ℚ) = (m : ℚ) := by
  obtain ⟨n, rfl⟩ : ∃ n : Nat, e = -(n : Int) := ⟨(-e).toNat, by omega⟩
  have hn : (- -(n : Int)).toNat = n := by simp
  rw [hn]
  unfold GoFloat.finVal
  push_cast
  rw [zpow_neg, zpow_natCast, mul_assoc, inv_mul_cancel₀ (by positivity), mul_one]

theorem integral_of_nonneg (m : Int) (n : Nat) : GoFloat.integral m n :=
  ⟨m * 2 ^ n, (finVal_of_nonneg m n).symm⟩

theorem integral_of_neg (m e : Int) (he : e < 0) :
    GoFloat.integral m e ↔ ((2 : Int) ^ (-e).toNat) ∣ m := by
  have hv := finVal_of_neg m e he
  constructor
  · rintro ⟨z, hz⟩
    refine Dvd.intro_left z ?_
    rw [← hz] at hv
    exact_mod_cast hv
  · intro h
    refine ⟨m.tdiv (2 ^ (-e).toNat), ?_⟩
    have hc : m.tdiv (2 ^ (-e).toNat) * 2 ^ (-e).toNat = m := Int.tdiv_mul_cancel h
    have hpos : ((((2 : Int) ^ (-e).toNat : Int)) : ℚ) ≠ 0 := by
      push_cast
      positivity
    apply mul_right_cancel₀ hpos
    rw [hv]
    exact_mod_cast hc

theorem log2_eq_of_bounds (n k : Nat) (h1 : 2 ^ k ≤ n) (h2 : n < 2 ^ (k + 1)) : n.log2 = k := by
  have hn : n ≠ 0 := by
    intro h0
    rw [h0] at h1
    have : 0 < 2 ^ k := by positivity
    omega
  have a := (Nat.le_log2 hn).2 h1
  have b := (Nat.log2_lt hn).2 h2
  omega

theorem ofInt64_int64Min : GoFloat.ofInt64 (-(2 ^ 63)) = GoFloat.fin (-(2 ^ 52)) 11 := by
  have hlog : Nat.log2 9223372036854775808 = 63 :=
    log2_eq_of_bounds _ 63 (by norm_num) (by norm_num)
  have hs : Int.sign 9223372036854775808 = 1 := Int.sign_eq_one_of_pos (by norm_num)
  unfold GoFloat.ofInt64
  norm_num [hlog, hs]

theorem ofInt64_int64Max : GoFloat.ofInt64 (2 ^ 63 - 1) = GoFloat.fin (2 ^ 53) 10 := by
  have hlog : Nat.log2 9223372036854775807 = 62 :=
    log2_eq_of_bounds _ 62 (by norm_num) (by norm_num)
  have hs : Int.sign 9223372036854775807 = 1 := Int.sign_eq_one_of_pos (by norm_num)
  unfold GoFloat.ofInt64
  norm_num [hlog, hs]

theorem ofInt64_is_finite (n : Int) : ∃ a b, GoFloat.ofInt64 n = GoFloat.fin a b := by
  unfold GoFloat.ofInt64
  simp only []
  split
  · exact ⟨_, _, rfl⟩
  · exact ⟨_, _, rfl⟩

/-- The effect of a tick that is not cancelled on state and emitted events does
not depend on the event channel; from Ready or Stale it emits one event. -/
theorem pollTick_settled (p : BulkProvider) (err : Option GoError)
    (hc : isCanceled err = false)
    (hs : p.state = State.ReadyState ∨ p.state = State.StaleState) :
    (pollTick p err).emitted.length = 1 ∧
    (err = none → (pollTick p err).provider.state = State.ReadyState) ∧
    (err ≠ none → (pollTick p err).provider.state = State.StaleState) ∧
    (pollTick p err).status ≠ LoopStatus.returned := by
  rcases p with ⟨ev, cfg, st, ch, cf⟩
  simp only at hs
  cases err with
  | none =>
    rcases hs with hs | hs <;> subst hs <;>
      simp [pollTick, pollAct, isCanceled, BulkProvider.setState, Sent.toTick,
        emit_emitted, emit_state] <;>
      split <;> simp
  | some e =>
    have he : e.canceled = false := hc
    rcases hs with hs | hs <;> subst hs <;>
      simp [pollTick, pollAct, isCanceled, he, BulkProvider.setState, Sent.toTick,
        emit_emitted, emit_state] <;>
      split <;> simp

/-- With room in the channel a tick from Ready or Stale queues its event and the
loop goes on. -/
theorem pollTick_room (p : BulkProvider) (err : Option GoError)
    (hc : isCanceled err = false)
    (hs : p.state = State.ReadyState ∨ p.state = State.StaleState)
    (hroom : p.events.buf.length < p.events.cap) :
    (pollTick p err).status = LoopStatus.next ∧
    (pollTick p err).provider.events.cap = p.events.cap ∧
    (pollTick p err).provider.events.buf = p.events.buf ++ (pollTick p err).emitted := by
  rcases p with ⟨ev, cfg, st, ch, cf⟩
  simp only at hs hroom
  cases err with
  | none =>
    rcases hs with hs | hs <;> subst hs <;>
      simp [pollTick, pollAct, isCanceled, BulkProvider.setState, Sent.toTick,
        BulkProvider.emit, EventChan.send, hroom]
  | some e =>
    have he : e.canceled = false := hc
    rcases hs with hs | hs <;> subst hs <;>
      simp [pollTick, pollAct, isCanceled, he, BulkProvider.setState, Sent.toTick,
        BulkProvider.emit, EventChan.send, hroom]

/-- A receive changes neither the state nor the two records of the loop. -/
theorem step_receive_frame (l : LoopState) :
    (l.step Step.receive).provider.state = l.provider.state ∧
    (l.step Step.receive).emitted = l.emitted ∧
    (l.step Step.receive).ticks = l.ticks := by
  cases hb : l.provider.events.buf <;> cases hp : l.pending <;>
    simp [LoopState.step, hb, hp]

/-- The invariant of a loop started in Ready or Stale whose ticks are not
cancelled: one event per tick, and the state follows the last fetch. -/
theorem step_settled (l : LoopState) (st : Step) (hst : st.notCancelled)
    (h1 : l.provider.state = State.ReadyState ∨ l.provider.state = State.StaleState)
    (h2 : l.emitted.length = l.ticks.length)
    (h3 : ∀ err, l.ticks.getLast? = some err →
      (err = none → l.provider.state = State.ReadyState) ∧
      (err ≠ none → l.provider.state = State.StaleState)) :
    ((l.step st).provider.state = State.ReadyState ∨
      (l.step st).provider.state = State.StaleState) ∧
    (l.step st).emitted.length = (l.step st).ticks.length ∧
    (∀ err, (l.step st).ticks.getLast? = some err →
      (err = none → (l.step st).provider.state = State.ReadyState) ∧
      (err ≠ none → (l.step st).provider.state = State.StaleState)) := by
  cases st with
  | receive =>
    obtain ⟨a, b, c⟩ := step_receive_frame l
    rw [a, b, c]
    exact ⟨h1, h2, h3⟩
  | pass s =>
    cases s with
    | done => exact absurd hst (by simp [Step.notCancelled])
    | tick err =>
      have hc : isCanceled err = false := hst
      by_cases hn : l.status = LoopStatus.next
      · obtain ⟨e1, e2, e3, _⟩ := pollTick_settled l.provider err hc h1
        simp only [LoopState.step, hn, if_true, pollSelect, Select.fetched]
        refine ⟨?_, ?_, ?_⟩
        · by_cases he : err = none
          · exact Or.inl (e2 he)
          · exact Or.inr (e3 he)
        · simp [e1, h2]
        · intro err2 hl
          rw [List.getLast?_append] at hl
          simp at hl
          subst hl
          exact ⟨e2, e3⟩
      · simp only [LoopState.step, hn, if_false]
        exact ⟨h1, h2, h3⟩

/-- The invariant of `step_settled` along a run. -/
theorem run_settled (steps : List Step) :
    ∀ l : LoopState, (∀ st ∈ steps, st.notCancelled) →
    (l.provider.state = State.ReadyState ∨ l.provider.state = State.StaleState) →
    l.emitted.length = l.ticks.length →
    (∀ err, l.ticks.getLast? = some err →
      (err = none → l.provider.state = State.ReadyState) ∧
      (err ≠ none → l.provider.state = State.StaleState)) →
    ((l.run steps).provider.state = State.ReadyState ∨
      (l.run steps).provider.state = State.StaleState) ∧
    (l.run steps).emitted.length = (l.run steps).ticks.length ∧
    (∀ err, (l.run steps).ticks.getLast? = some err →
      (err = none → (l.run steps).provider.state = State.ReadyState) ∧
      (err ≠ none → (l.run steps).provider.state = State.StaleState)) := by
  induction steps with
  | nil =>
    intro l _ h1 h2 h3
    exact ⟨h1, h2, h3⟩
  | cons st rest ih =>
    intro l hall h1 h2 h3
    obtain ⟨a, b, c⟩ := step_settled l st (hall st (List.mem_cons_self _ _)) h1 h2 h3
    exact ih (l.step st) (fun x hx => hall x (List.mem_cons_of_mem _ hx)) a b c

/-- With room for all of them, every tick of a list of ticks runs. -/
theorem run_all_ticks (errs : List (Option GoError)) :
    ∀ l : LoopState, (∀ err ∈ errs, isCanceled err = false) →
    (l.provider.state = State.ReadyState ∨ l.provider.state = State.StaleState) →
    l.status = LoopStatus.next →
    l.provider.events.buf.length + errs.length ≤ l.provider.events.cap →
    (l.run (errs.map (fun err => Step.pass (Select.tick err)))).ticks = l.ticks ++ errs ∧
    (l.run (errs.map (fun err => Step.pass (Select.tick err)))).status = LoopStatus.next := by
  induction errs with
  | nil =>
    intro l _ _ hn _
    simp [LoopState.run, hn]
  | cons err rest ih =>
    intro l hall hs hn hroom
    have hc : isCanceled err = false := hall err (List.mem_cons_self _ _)
    have hr : l.provider.events.buf.length < l.provider.events.cap := by
      simp only [List.length_cons] at hroom
      omega
    obtain ⟨e1, e2, e3, _⟩ := pollTick_settled l.provider err hc hs
    obtain ⟨r1, r2, r3⟩ := pollTick_room l.provider err hc hs hr
    have hstep : l.step (Step.pass (Select.tick err)) =
        { provider := (pollTick l.provider err).provider, status := LoopStatus.next,
          pending := none, emitted := l.emitted ++ (pollTick l.provider err).emitted,
          ticks := l.ticks ++ [err] } := by
      simp [LoopState.step, hn, pollSelect, Select.fetched, r1]
    have hs2 : (pollTick l.provider err).provider.state = State.ReadyState ∨
        (pollTick l.provider err).provider.state = State.StaleState := by
      by_cases he : err = none
      · exact Or.inl (e2 he)
      · exact Or.inr (e3 he)
    have hroom2 : (pollTick l.provider err).provider.events.buf.length + rest.length ≤
        (pollTick l.provider err).provider.events.cap := by
      rw [r2, r3, List.length_append, e1]
      simp only [List.length_cons] at hroom
      omega
    have := ih (l.step (Step.pass (Select.tick err)))
      (fun x hx => hall x (List.mem_cons_of_mem _ hx))
      (by rw [hstep]; exact hs2) (by rw [hstep]) (by rw [hstep]; exact hroom2)
    simp only [LoopState.run, List.map_cons, List.foldl_cons] at this ⊢
    rw [hstep] at this ⊢
    simpa using this

/-- A send on a full channel parks and changes nothing. -/
theorem emit_of_full (p : BulkProvider) (e : Event)
    (h : p.events.cap ≤ p.events.buf.length) :
    p.emit e = { provider := p, emitted := [e], parked := true } := by
  have hn : ¬ p.events.buf.length < p.events.cap := by omega
  simp [BulkProvider.emit, EventChan.send, hn]

/-- A send on a channel with room queues the event. -/
theorem emit_of_room (p : BulkProvider) (e : Event)
    (h : p.events.buf.length < p.events.cap) :
    p.emit e =
      { provider := { p with events := { p.events with buf := p.events.buf ++ [e] } },
        emitted := [e], parked := false } := by
  simp [BulkProvider.emit, EventChan.send, h]

/-- A tick that emits is a state write followed by one send. -/
theorem pollTick_emits (p : BulkProvider) (err : Option GoError)
    (hem : (pollTick p err).emitted ≠ []) :
    ∃ (s : State) (e : Event), pollTick p err = (({ p with state := s }).emit e).toTick := by
  rcases p with ⟨ev, cfg, st, ch, cf⟩
  cases err with
  | none =>
    cases st
    · exact ⟨State.ReadyState, _, rfl⟩
    · exact ⟨State.ReadyState, _, rfl⟩
    · exact ⟨State.ReadyState, _, rfl⟩
    · exact ⟨State.ReadyState, _, rfl⟩
  | some e =>
    cases hcz : e.canceled
    · cases st
      · simp [pollTick, pollAct, isCanceled, hcz] at hem
      · exact ⟨State.StaleState, failureEvent EventType.ProviderStale e, by
          simp [pollTick, pollAct, isCanceled, hcz, BulkProvider.setState, failureEvent]⟩
      · exact ⟨State.ErrorState, failureEvent EventType.ProviderError e, by
          simp [pollTick, pollAct, isCanceled, hcz, BulkProvider.setState, failureEvent]⟩
      · exact ⟨State.StaleState, failureEvent EventType.ProviderStale e, by
          simp [pollTick, pollAct, isCanceled, hcz, BulkProvider.setState, failureEvent]⟩
    · simp [pollTick, isCanceled, hcz] at hem

/-- A goroutine that has returned stays returned: later steps add no tick and
no event and do not touch the state. -/
theorem run_returned (steps : List Step) :
    ∀ l : LoopState, l.status = LoopStatus.returned → l.pending = none →
    (l.run steps).ticks = l.ticks ∧ (l.run steps).emitted = l.emitted ∧
    (l.run steps).provider.state = l.provider.state ∧
    (l.run steps).status = LoopStatus.returned := by
  induction steps with
  | nil =>
    intro l hs _
    exact ⟨rfl, rfl, rfl, hs⟩
  | cons st rest ih =>
    intro l hs hp
    have hstep : (l.step st).status = LoopStatus.returned ∧ (l.step st).pending = none ∧
        (l.step st).ticks = l.ticks ∧ (l.step st).emitted = l.emitted ∧
        (l.step st).provider.state = l.provider.state := by
      cases st with
      | pass s => simp [LoopState.step, hs, hp]
      | receive =>
        cases hb : l.provider.events.buf <;> simp [LoopState.step, hb, hp, hs]
    obtain ⟨a, b, c, d, e⟩ := hstep
    obtain ⟨r1, r2, r3, r4⟩ := ih (l.step st) a b
    simp only [LoopState.run, List.foldl_cons] at r1 r2 r3 r4 ⊢
    exact ⟨r1.trans c, r2.trans d, r3.trans e, r4⟩

/-- The half of the consistency that the code keeps: a provider that holds an
evaluator is not in NotReady. -/
theorem evaluator_some_state (actions : List Action) :
    ∀ p : BulkProvider, (p.evaluator.isSome = true → p.state ≠ State.NotReadyState) →
    ((p.runActions actions).evaluator.isSome = true →
      (p.runActions actions).state ≠ State.NotReadyState) := by
  induction actions with
  | nil =>
    intro p h
    exact h
  | cons a rest ih =>
    intro p h
    apply ih (p.act a)
    rcases p with ⟨ev, cfg, st, ch, cf⟩
    simp only at h
    cases a with
    | init c x f =>
      cases st <;> cases f <;> simp_all [BulkProvider.act, BulkProvider.Init]
    | tick err =>
      cases err with
      | none =>
        cases st <;>
          simp [BulkProvider.act, pollTick, pollAct, isCanceled, BulkProvider.setState,
            Sent.toTick, emit_state]
      | some e =>
        cases hc : e.canceled <;> cases st <;>
          simp_all [BulkProvider.act, pollTick, pollAct, isCanceled, BulkProvider.setState,
            Sent.toTick, emit_state, BulkProvider.emit] <;>
          split <;> simp_all
    | shutdown =>
      cases cf <;> simp [BulkProvider.act, BulkProvider.Shutdown]

/-- The header loop over a list of callbacks: a key holds the value of the last
callback that wrote it, and is untouched when none did. -/
theorem foldl_set_header (canon : String → String) (cbs : List HeaderCallback) :
    ∀ (req : Request) (k : String),
    ((cbs.foldl
        (fun req callback =>
          { req with Header := req.Header.Set canon (callback ()).1 (callback ()).2 })
        req).Header k =
      match cbs.reverse.find? (fun cb => decide (canon (cb ()).1 = k)) with
      | some cb => some [(cb ()).2]
      | none => req.Header k) := by
  induction cbs using List.reverseRecOn with
  | nil =>
    intro req k
    simp
  | append_singleton l a ih =>
    intro req k
    rw [List.foldl_append, List.reverse_append]
    simp only [List.foldl_cons, List.foldl_nil, List.reverse_cons, List.reverse_nil,
      List.nil_append, List.singleton_append, List.find?_cons]
    by_cases hk : canon (a ()).1 = k
    · simp [hk, Header.Set]
    · have hk2 : ¬ k = canon (a ()).1 := fun h => hk h.symm
      simp only [hk, decide_False, Header.Set, hk2, if_false]
      exact ih req k

/-- The header loop touches only the header of the request. -/
theorem foldl_set_header_frame (canon : String → String) (cbs : List HeaderCallback) :
    ∀ req : Request,
    (cbs.foldl
        (fun req callback =>
          { req with Header := req.Header.Set canon (callback ()).1 (callback ()).2 })
        req).ctx = req.ctx ∧
    (cbs.foldl
        (fun req callback =>
          { req with Header := req.Header.Set canon (callback ()).1 (callback ()).2 })
        req).Method = req.Method ∧
    (cbs.foldl
        (fun req callback =>
          { req with Header := req.Header.Set canon (callback ()).1 (callback ()).2 })
        req).URL = req.URL ∧
    (cbs.foldl
        (fun req callback =>
          { req with Header := req.Header.Set canon (callback ()).1 (callback ()).2 })
        req).Body = req.Body := by
  induction cbs with
  | nil =>
    intro req
    exact ⟨rfl, rfl, rfl, rfl⟩
  | cons a rest ih =>
    intro req
    exact ih _

/-- A tick that nothing interrupts (fetch, read, write in a row) is `pollTick`. -/
theorem machine_tick_uninterrupted (m : Machine) (err : Option GoError)
    (h : m.flights = []) :
    (m.run [Op.fetch err, Op.read 0, Op.write 0]).provider = (pollTick m.provider err).provider ∧
    (m.run [Op.fetch err, Op.read 0, Op.write 0]).flights = [] := by
  rcases m with ⟨p, fl, f⟩
  simp only at h
  subst h
  cases hc : isCanceled err <;>
    simp [Machine.run, Machine.step, hc, pollTick]

/-! ## The claims -/

/-- Claim C1. From state NotReady, `Init` ends in Ready with no error when the
first fetch succeeds, and in Error with a non-nil error (the fetch error,
wrapped) when it fails; it never ends in NotReady or Stale, and it performs
exactly one fetch. -/
theorem init_from_not_ready (p : BulkProvider) (evalCtx : EvaluationContext) (ctx : Context)
    (fetch : Option GoError) (h : p.state = State.NotReadyState) :
    (fetch = none →
      (p.Init evalCtx ctx fetch).provider.state = State.ReadyState ∧
      (p.Init evalCtx ctx fetch).err = none) ∧
    (∀ e, fetch = some e →
      (p.Init evalCtx ctx fetch).provider.state = State.ErrorState ∧
      (p.Init evalCtx ctx fetch).err = some (wrapFetchError e) ∧
      (p.Init evalCtx ctx fetch).err ≠ none) ∧
    (p.Init evalCtx ctx fetch).provider.state ≠ State.NotReadyState ∧
    (p.Init evalCtx ctx fetch).provider.state ≠ State.StaleState ∧
    (p.Init evalCtx ctx fetch).fetches = 1 := by
  cases fetch <;> simp [BulkProvider.Init, h]

/-- The sample provider, whose first fetch is answered with status 500, ends
in Error and `Init` returns the wrapped error. -/
theorem init_from_not_ready_witness :
    sampleProvider.state = State.NotReadyState ∧
    ((sampleProvider.Init sampleEvalCtx 1 (some sampleFailure)).provider.state =
        State.ErrorState ∧
      (sampleProvider.Init sampleEvalCtx 1 (some sampleFailure)).err =
        some (wrapFetchError sampleFailure) ∧
      (sampleProvider.Init sampleEvalCtx 1 (some sampleFailure)).err ≠ none) :=
  ⟨rfl, (init_from_not_ready sampleProvider sampleEvalCtx 1 (some sampleFailure) rfl).2.1
    sampleFailure rfl⟩

/-- Claim C2. `Init` is idempotent: on a provider whose state is not NotReady it
returns no error, performs no fetch, launches no goroutine and leaves every
field (state, evaluator, cancel handle, configuration, events) unchanged; so a
second `Init` right after a first one, whatever the first fetch gave, returns no
error and changes nothing. -/
theorem init_idempotent (p : BulkProvider) (evalCtx : EvaluationContext) (ctx : Context)
    (fetch : Option GoError) :
    (p.state ≠ State.NotReadyState →
      (p.Init evalCtx ctx fetch).err = none ∧
      (p.Init evalCtx ctx fetch).fetches = 0 ∧
      (p.Init evalCtx ctx fetch).poller = none ∧
      (p.Init evalCtx ctx fetch).provider = p) ∧
    (∀ (evalCtx2 : EvaluationContext) (ctx2 : Context) (fetch2 : Option GoError),
      ((p.Init evalCtx ctx fetch).provider.Init evalCtx2 ctx2 fetch2).err = none ∧
      ((p.Init evalCtx ctx fetch).provider.Init evalCtx2 ctx2 fetch2).fetches = 0 ∧
      ((p.Init evalCtx ctx fetch).provider.Init evalCtx2 ctx2 fetch2).poller = none ∧
      ((p.Init evalCtx ctx fetch).provider.Init evalCtx2 ctx2 fetch2).provider =
        (p.Init evalCtx ctx fetch).provider) := by
  have key : ∀ (q : BulkProvider) (c : EvaluationContext) (x : Context) (f : Option GoError),
      q.state ≠ State.NotReadyState →
      (q.Init c x f).err = none ∧ (q.Init c x f).fetches = 0 ∧
      (q.Init c x f).poller = none ∧ (q.Init c x f).provider = q := by
    intro q c x f hq
    simp [BulkProvider.Init, hq]
  refine ⟨key p evalCtx ctx fetch, ?_⟩
  intro evalCtx2 ctx2 fetch2
  apply key
  by_cases hp : p.state = State.NotReadyState
  · cases fetch <;> simp [BulkProvider.Init, hp]
  · simp [BulkProvider.Init, hp]

/-- After a first `Init` that failed, the second `Init` of the sample provider is
a no-op. -/
theorem init_idempotent_witness :
    (sampleProvider.Init sampleEvalCtx 1 (some sampleFailure)).provider.state ≠
      State.NotReadyState ∧
    (((sampleProvider.Init sampleEvalCtx 1 (some sampleFailure)).provider.Init
        sampleEvalCtx 2 none).err = none ∧
      ((sampleProvider.Init sampleEvalCtx 1 (some sampleFailure)).provider.Init
        sampleEvalCtx 2 none).fetches = 0 ∧
      ((sampleProvider.Init sampleEvalCtx 1 (some sampleFailure)).provider.Init
        sampleEvalCtx 2 none).poller = none ∧
      ((sampleProvider.Init sampleEvalCtx 1 (some sampleFailure)).provider.Init
        sampleEvalCtx 2 none).provider =
        (sampleProvider.Init sampleEvalCtx 1 (some sampleFailure)).provider) :=
  ⟨by decide,
    (init_idempotent (sampleProvider.Init sampleEvalCtx 1 (some sampleFailure)).provider
      sampleEvalCtx 2 none).1 (by decide)⟩

/-- Claim C3. `Shutdown` is total; after it the state is NotReady, the evaluator
is dropped and the cancel handle is cleared, the cancel function it called is
the one that was stored, configuration and event channel are untouched, and a
second `Shutdown` gives the same provider as the first and cancels nothing. -/
theorem shutdown_resets (p : BulkProvider) :
    p.Shutdown.provider.state = State.NotReadyState ∧
    p.Shutdown.provider.evaluator = none ∧
    p.Shutdown.provider.cancelFunc = none ∧
    p.Shutdown.cancelled = p.cancelFunc ∧
    p.Shutdown.provider.cfg = p.cfg ∧
    p.Shutdown.provider.events = p.events ∧
    p.Shutdown.provider.Shutdown.provider = p.Shutdown.provider ∧
    p.Shutdown.provider.Shutdown.cancelled = none := by
  rcases p with ⟨ev, cfg, st, ch, cf⟩
  cases cf <;> simp [BulkProvider.Shutdown]

/-- Claim C4. The code at the failing input: the sample provider after `Init`
and `Shutdown` is in state NotReady with no evaluator; a tick of the old loop
whose fetch had succeeded moves it to Ready, hands a provider-ready event to the
channel and leaves the evaluator nil. On the same provider a tick whose fetch
failed, a tick whose fetch was cancelled and a second `Shutdown` keep the state
NotReady and emit nothing. -/
theorem tick_after_shutdown_reaches_ready :
    afterShutdown.state = State.NotReadyState ∧
    afterShutdown.evaluator = none ∧
    (pollTick afterShutdown none).provider.state = State.ReadyState ∧
    (pollTick afterShutdown none).emitted = [readyEvent] ∧
    (pollTick afterShutdown none).provider.events.buf = [readyEvent] ∧
    (pollTick afterShutdown none).provider.evaluator = none ∧
    (pollTick afterShutdown (some sampleFailure)).provider.state = State.NotReadyState ∧
    (pollTick afterShutdown (some sampleFailure)).emitted = [] ∧
    (pollTick afterShutdown (some sampleCanceled)).provider.state = State.NotReadyState ∧
    (pollTick afterShutdown (some sampleCanceled)).emitted = [] ∧
    afterShutdown.Shutdown.provider.state = State.NotReadyState ∧
    afterShutdown.Shutdown.provider.events = afterShutdown.events := by
  refine ⟨rfl, rfl, rfl, rfl, rfl, rfl, rfl, rfl, rfl, rfl, rfl, rfl⟩

/-- Claim C5. A tick whose fetch succeeds: from Ready the state stays Ready and
the one event handed to the channel is config-changed; from Stale, Error or
NotReady the state becomes Ready and the one event is provider-ready. When the
channel has room the event is appended to its buffer and the loop goes on. -/
theorem poll_success (p : BulkProvider) :
    (p.state = State.ReadyState →
      (pollTick p none).provider.state = State.ReadyState ∧
      (pollTick p none).emitted = [configChangeEvent]) ∧
    (p.state = State.StaleState ∨ p.state = State.ErrorState ∨ p.state = State.NotReadyState →
      (pollTick p none).provider.state = State.ReadyState ∧
      (pollTick p none).emitted = [readyEvent]) ∧
    (p.events.buf.length < p.events.cap →
      (pollTick p none).provider.events.buf = p.events.buf ++ (pollTick p none).emitted ∧
      (pollTick p none).status = LoopStatus.next) := by
  rcases p with ⟨ev, cfg, st, ch, cf⟩
  cases st <;>
    simp [pollTick, pollAct, isCanceled, BulkProvider.setState, Sent.toTick, emit_emitted,
      emit_state, readyEvent, configChangeEvent] <;>
    intro h <;> simp [BulkProvider.emit, EventChan.send, h]

/-- The success tick on the sample provider in state Ready and in state Error. -/
theorem poll_success_witness :
    (sampleIn State.ReadyState).state = State.ReadyState ∧
    ((pollTick (sampleIn State.ReadyState) none).provider.state = State.ReadyState ∧
      (pollTick (sampleIn State.ReadyState) none).emitted = [configChangeEvent]) ∧
    ((sampleIn State.ErrorState).state = State.StaleState ∨
      (sampleIn State.ErrorState).state = State.ErrorState ∨
      (sampleIn State.ErrorState).state = State.NotReadyState) ∧
    ((pollTick (sampleIn State.ErrorState) none).provider.state = State.ReadyState ∧
      (pollTick (sampleIn State.ErrorState) none).emitted = [readyEvent]) ∧
    (sampleIn State.ReadyState).events.buf.length < (sampleIn State.ReadyState).events.cap ∧
    ((pollTick (sampleIn State.ReadyState) none).provider.events.buf =
        (sampleIn State.ReadyState).events.buf ++
          (pollTick (sampleIn State.ReadyState) none).emitted ∧
      (pollTick (sampleIn State.ReadyState) none).status = LoopStatus.next) :=
  ⟨rfl, (poll_success (sampleIn State.ReadyState)).1 rfl,
    Or.inr (Or.inl rfl), (poll_success (sampleIn State.ErrorState)).2.1 (Or.inr (Or.inl rfl)),
    by decide, (poll_success (sampleIn State.ReadyState)).2.2 (by decide)⟩

/-- Claim C6. A tick whose fetch fails with a non-cancellation error e: from
Ready or Stale the state becomes Stale and the one event handed to the channel
is provider-stale; from Error the state stays Error and the one event is
provider-error; the message of the event is the text of e. When the channel has
room the event is appended to its buffer and the loop goes on. -/
theorem poll_failure (p : BulkProvider) (e : GoError) (h : e.canceled = false) :
    (p.state = State.ReadyState ∨ p.state = State.StaleState →
      (pollTick p (some e)).provider.state = State.StaleState ∧
      (pollTick p (some e)).emitted = [failureEvent EventType.ProviderStale e]) ∧
    (p.state = State.ErrorState →
      (pollTick p (some e)).provider.state = State.ErrorState ∧
      (pollTick p (some e)).emitted = [failureEvent EventType.ProviderError e]) ∧
    (p.state ≠ State.NotReadyState → p.events.buf.length < p.events.cap →
      (pollTick p (some e)).provider.events.buf =
        p.events.buf ++ (pollTick p (some e)).emitted ∧
      (pollTick p (some e)).status = LoopStatus.next) := by
  rcases p with ⟨ev, cfg, st, ch, cf⟩
  cases st <;>
    simp [pollTick, pollAct, isCanceled, h, BulkProvider.setState, Sent.toTick, emit_emitted,
      emit_state, failureEvent] <;>
    intro h2 <;> simp [BulkProvider.emit, EventChan.send, h2]

/-- The failure tick on the sample provider in state Ready and in state Error. -/
theorem poll_failure_witness :
    sampleFailure.canceled = false ∧
    ((sampleIn State.ReadyState).state = State.ReadyState ∨
      (sampleIn State.ReadyState).state = State.StaleState) ∧
    ((pollTick (sampleIn State.ReadyState) (some sampleFailure)).provider.state =
        State.StaleState ∧
      (pollTick (sampleIn State.ReadyState) (some sampleFailure)).emitted =
        [failureEvent EventType.ProviderStale sampleFailure]) ∧
    (sampleIn State.ErrorState).state = State.ErrorState ∧
    ((pollTick (sampleIn State.ErrorState) (some sampleFailure)).provider.state =
        State.ErrorState ∧
      (pollTick (sampleIn State.ErrorState) (some sampleFailure)).emitted =
        [failureEvent EventType.ProviderError sampleFailure]) ∧
    (sampleIn State.ErrorState).state ≠ State.NotReadyState ∧
    (sampleIn State.ErrorState).events.buf.length < (sampleIn State.ErrorState).events.cap ∧
    ((pollTick (sampleIn State.ErrorState) (some sampleFailure)).provider.events.buf =
        (sampleIn State.ErrorState).events.buf ++
          (pollTick (sampleIn State.ErrorState) (some sampleFailure)).emitted ∧
      (pollTick (sampleIn State.ErrorState) (some sampleFailure)).status = LoopStatus.next) :=
  ⟨rfl, Or.inl rfl,
    (poll_failure (sampleIn State.ReadyState) sampleFailure rfl).1 (Or.inl rfl),
    rfl, (poll_failure (sampleIn State.ErrorState) sampleFailure rfl).2.1 rfl,
    by decide, by decide,
    (poll_failure (sampleIn State.ErrorState) sampleFailure rfl).2.2 (by decide) (by decide)⟩

/-- Claim C7, as stated, fails at the float64 value 2^63: it has no fractional
part, yet the conversion fails where the out-of-range `int64(v)` is the amd64
one, and returns 2^63 - 1, which is not v, where it is the arm64 one. -/
theorem convertToInt64_two_pow_63 :
    (GoFloat.fin 1 63).isFloat64 ∧ GoFloat.integral 1 63 ∧
    convertToInt64 amd64 (Value.float64 (GoFloat.fin 1 63)) = (0, false) ∧
    convertToInt64 arm64 (Value.float64 (GoFloat.fin 1 63)) = (2 ^ 63 - 1, true) ∧
    (((2 ^ 63 - 1 : Int) : ℚ) ≠ GoFloat.finVal 1 63) := by
  have t63 : Int.toNat 63 = 63 := rfl
  have t53 : Int.toNat 53 = 53 := rfl
  have t52 : Int.toNat 52 = 52 := rfl
  have ha : GoFloat.toInt64 amd64 (GoFloat.fin 1 63) = -(2 ^ 63) := by
    norm_num [t63, GoFloat.toInt64, GoFloat.trunc, amd64, int64Min, int64Max, wrapInt64]
  have hb : GoFloat.toInt64 arm64 (GoFloat.fin 1 63) = 2 ^ 63 - 1 := by
    norm_num [t63, GoFloat.toInt64, GoFloat.trunc, arm64, int64Min, int64Max, wrapInt64]
  refine ⟨?_, integral_of_nonneg 1 63, ?_, ?_, ?_⟩
  · norm_num [GoFloat.isFloat64]
  · simp only [convertToInt64, ha, ofInt64_int64Min]
    norm_num [GoFloat.eq, t52]
  · simp only [convertToInt64, hb, ofInt64_int64Max]
    norm_num [GoFloat.eq, t53]
  · norm_num [GoFloat.finVal]

/-- Claim C7, amended. `convertToInt64`, whatever the choice made for values
outside `int64`: a native int or an int64 is returned unchanged; a finite
float64 without fractional part that lies within the range of `int64` converts
to the integer equal to it; a float64 with a fractional part, a not-a-number
and an infinity fail; every other dynamic type (nil, bool, string, float32,
object, list) fails. -/
theorem convertToInt64_spec (oor : GoFloat → Int) :
    (∀ i : Int, convertToInt64 oor (Value.int i) = (i, true)) ∧
    (∀ i : Int, convertToInt64 oor (Value.int64 i) = (i, true)) ∧
    (∀ m e : Int, (GoFloat.fin m e).isFloat64 →
      (GoFloat.integral m e →
        ((int64Min : Int) : ℚ) ≤ GoFloat.finVal m e →
        GoFloat.finVal m e ≤ ((int64Max : Int) : ℚ) →
        ∃ z : Int, (z : ℚ) = GoFloat.finVal m e ∧
          convertToInt64 oor (Value.float64 (GoFloat.fin m e)) = (z, true)) ∧
      (¬ GoFloat.integral m e →
        convertToInt64 oor (Value.float64 (GoFloat.fin m e)) = (0, false))) ∧
    convertToInt64 oor (Value.float64 GoFloat.nan) = (0, false) ∧
    (∀ neg : Bool, convertToInt64 oor (Value.float64 (GoFloat.inf neg)) = (0, false)) ∧
    convertToInt64 oor Value.null = (0, false) ∧
    (∀ b : Bool, convertToInt64 oor (Value.bool b) = (0, false)) ∧
    (∀ s : String, convertToInt64 oor (Value.string s) = (0, false)) ∧
    (∀ f : GoFloat, convertToInt64 oor (Value.float32 f) = (0, false)) ∧
    (∀ o : List (String × Value), convertToInt64 oor (Value.object o) = (0, false)) ∧
    (∀ l : List Value, convertToInt64 oor (Value.list l) = (0, false)) := by
  refine ⟨fun _ => rfl, fun _ => rfl, ?_, ?_, ?_, rfl, fun _ => rfl, fun _ => rfl,
    fun _ => rfl, fun _ => rfl, fun _ => rfl⟩
  · intro m e hf
    have hm : m.natAbs < 2 ^ 53 := hf.1
    by_cases he : 0 ≤ e
    · obtain ⟨n, rfl⟩ : ∃ n : Nat, e = (n : Int) := ⟨e.toNat, (Int.toNat_of_nonneg he).symm⟩
      refine ⟨?_, fun h => absurd (integral_of_nonneg m n) h⟩
      intro _ hlo hhi
      rw [finVal_of_nonneg] at hlo hhi
      refine ⟨m * 2 ^ n, (finVal_of_nonneg m n).symm, ?_⟩
      exact convertToInt64_of_nonneg_exp oor m n hm (by exact_mod_cast hlo)
        (by exact_mod_cast hhi)
    · have he2 : e < 0 := not_le.mp he
      have hc := convertToInt64_of_neg_exp oor m e hm he2
      have hi := integral_of_neg m e he2
      constructor
      · intro hint _ _
        have hd := hi.mp hint
        rw [if_pos hd] at hc
        refine ⟨m.tdiv (2 ^ (-e).toNat), ?_, hc⟩
        have hv := finVal_of_neg m e he2
        have hcancel : m.tdiv (2 ^ (-e).toNat) * 2 ^ (-e).toNat = m := Int.tdiv_mul_cancel hd
        have hpos : ((((2 : Int) ^ (-e).toNat : Int)) : ℚ) ≠ 0 := by
          push_cast
          positivity
        apply mul_right_cancel₀ hpos
        rw [hv]
        exact_mod_cast hcancel
      · intro hint
        have hd : ¬ ((2 : Int) ^ (-e).toNat) ∣ m := fun h => hint (hi.mpr h)
        rw [if_neg hd] at hc
        exact hc
  · obtain ⟨a, b, h⟩ := ofInt64_is_finite (GoFloat.toInt64 oor GoFloat.nan)
    simp [convertToInt64, h, GoFloat.eq]
  · intro neg
    obtain ⟨a, b, h⟩ := ofInt64_is_finite (GoFloat.toInt64 oor (GoFloat.inf neg))
    simp [convertToInt64, h, GoFloat.eq]

/-- The float64 3.0 converts to 3 and the float64 3.5 fails. -/
theorem convertToInt64_spec_witness :
    (GoFloat.fin 3 0).isFloat64 ∧ GoFloat.integral 3 0 ∧
    ((int64Min : Int) : ℚ) ≤ GoFloat.finVal 3 0 ∧
    GoFloat.finVal 3 0 ≤ ((int64Max : Int) : ℚ) ∧
    (∃ z : Int, (z : ℚ) = GoFloat.finVal 3 0 ∧
      convertToInt64 amd64 (Value.float64 (GoFloat.fin 3 0)) = (z, true)) ∧
    (GoFloat.fin 7 (-1)).isFloat64 ∧ ¬ GoFloat.integral 7 (-1) ∧
    convertToInt64 amd64 (Value.float64 (GoFloat.fin 7 (-1))) = (0, false) := by
  have h1 : (GoFloat.fin 3 0).isFloat64 := by norm_num [GoFloat.isFloat64]
  have h2 : GoFloat.integral 3 0 := integral_of_nonneg 3 0
  have h3 : ((int64Min : Int) : ℚ) ≤ GoFloat.finVal 3 0 := by
    norm_num [GoFloat.finVal, int64Min]
  have h4 : GoFloat.finVal 3 0 ≤ ((int64Max : Int) : ℚ) := by
    norm_num [GoFloat.finVal, int64Max]
  have h5 : (GoFloat.fin 7 (-1)).isFloat64 := by norm_num [GoFloat.isFloat64]
  have h6 : ¬ GoFloat.integral 7 (-1) := by
    rw [integral_of_neg 7 (-1) (by norm_num)]
    decide
  exact ⟨h1, h2, h3, h4, ((convertToInt64_spec amd64).2.2.1 3 0 h1).1 h2 h3 h4, h5, h6,
    ((convertToInt64_spec amd64).2.2.1 7 (-1) h5).2 h6⟩

/-- Claim C8. For every target type, default value and conversion, a success
outcome whose reason is DISABLED resolves to the default with reason DISABLED,
the stored variant and metadata, and no resolution error, whatever the stored
value. -/
theorem resolve_disabled {T : Type} (fmtV : Value → String) (fmtT : T → String) (ctx : Context)
    (r : resolver) (key : String) (defaultValue : T) (evalCtx : GoMap) (convert : convertFunc T)
    (s : successDto) (h : r.resolveSingle ctx key evalCtx = (some s, none))
    (hd : s.Reason = DisabledReason) :
    resolve fmtV fmtT ctx r key defaultValue evalCtx convert =
      some (defaultValue,
        { ResolutionError := noError, Reason := DisabledReason, Variant := s.Variant,
          FlagMetadata := s.Metadata }) := by
  simp [resolve, h, hd]

/-- A disabled flag storing a string, resolved as an integer with default 7,
gives 7 with reason DISABLED and no error although the string does not
convert. -/
theorem resolve_disabled_witness :
    (constResolver (some disabledDto) none).resolveSingle 0 "flag" GoMap.empty =
      (some disabledDto, none) ∧
    disabledDto.Reason = DisabledReason ∧
    (convertToInt64 amd64 disabledDto.Value).2 = false ∧
    resolve sampleFmtV (fun _ => "int64") 0 (constResolver (some disabledDto) none) "flag"
        (7 : Int) GoMap.empty (convertToInt64 amd64) =
      some (7, { ResolutionError := noError, Reason := DisabledReason, Variant := "v1",
                 FlagMetadata := GoMap.empty }) :=
  ⟨rfl, rfl, rfl,
    resolve_disabled sampleFmtV (fun _ => "int64") 0 (constResolver (some disabledDto) none)
      "flag" 7 GoMap.empty (convertToInt64 amd64) disabledDto rfl rfl⟩

/-- Claim C9. When the resolver reports an error, `resolve` returns the default
with exactly that error and reason ERROR; when the outcome is a success that is
not disabled and whose value fails conversion, it returns the default with a
TypeMismatch error and reason ERROR; whenever the returned detail carries an
error the returned value is the default; and `resolve` returns a result for
every resolver answer that holds an error or a success. -/
theorem resolve_error_default {T : Type} (fmtV : Value → String) (fmtT : T → String)
    (ctx : Context) (r : resolver) (key : String) (defaultValue : T) (evalCtx : GoMap)
    (convert : convertFunc T) :
    (∀ (s : Option successDto) (re : ResolutionError),
      r.resolveSingle ctx key evalCtx = (s, some re) →
      resolve fmtV fmtT ctx r key defaultValue evalCtx convert =
        some (defaultValue,
          { ResolutionError := re, Reason := ErrorReason, Variant := "",
            FlagMetadata := GoMap.empty })) ∧
    (∀ s : successDto, r.resolveSingle ctx key evalCtx = (some s, none) →
      s.Reason ≠ DisabledReason → (convert s.Value).2 = false →
      resolve fmtV fmtT ctx r key defaultValue evalCtx convert =
        some (defaultValue,
          { ResolutionError := NewTypeMismatchResolutionError
              (mismatchMessage fmtV fmtT s.Value defaultValue),
            Reason := ErrorReason, Variant := "", FlagMetadata := GoMap.empty })) ∧
    (∀ (v : T) (d : ProviderResolutionDetail),
      resolve fmtV fmtT ctx r key defaultValue evalCtx convert = some (v, d) →
      d.ResolutionError ≠ noError → v = defaultValue) ∧
    (r.resolveSingle ctx key evalCtx ≠ (none, none) →
      (resolve fmtV fmtT ctx r key defaultValue evalCtx convert).isSome = true) := by
  refine ⟨?_, ?_, ?_, ?_⟩
  · intro s re h
    simp [resolve, h]
  · intro s h hd hc
    simp [resolve, h, hd, hc]
  · intro v d h hne
    unfold resolve at h
    rcases hr : r.resolveSingle ctx key evalCtx with ⟨s, e⟩
    rw [hr] at h
    cases e with
    | some re =>
      simp at h
      exact h.1.symm
    | none =>
      cases s with
      | none => simp at h
      | some s =>
        by_cases hd : s.Reason = DisabledReason
        · simp [hd] at h
          exact h.1.symm
        · rcases hc : convert s.Value with ⟨b, ok⟩
          cases ok
          · simp [hd, hc] at h
            exact h.1.symm
          · simp [hd, hc] at h
            exact absurd (h.2 ▸ rfl) hne
  · intro hne
    unfold resolve
    rcases hr : r.resolveSingle ctx key evalCtx with ⟨s, e⟩
    rw [hr] at hne
    cases e with
    | some re => simp
    | none =>
      cases s with
      | none => exact absurd rfl hne
      | some s =>
        simp only []
        split
        · rfl
        · split <;> rfl

/-- The entry `flag-error` resolves to the default with its error, and the
boolean entry `flag-bool` resolved as an integer gives the default with
TypeMismatch. -/
theorem resolve_error_default_witness :
    (constResolver none (some flagError)).resolveSingle 0 "flag-error" GoMap.empty =
      (none, some flagError) ∧
    resolve sampleFmtV (fun _ => "bool") 0 (constResolver none (some flagError)) "flag-error"
        false GoMap.empty convertDefault =
      some (false, { ResolutionError := flagError, Reason := ErrorReason, Variant := "",
                     FlagMetadata := GoMap.empty }) ∧
    (constResolver (some flagBoolDto) none).resolveSingle 0 "flag-bool" GoMap.empty =
      (some flagBoolDto, none) ∧
    flagBoolDto.Reason ≠ DisabledReason ∧
    (convertToInt64 amd64 flagBoolDto.Value).2 = false ∧
    resolve sampleFmtV (fun _ => "int64") 0 (constResolver (some flagBoolDto) none) "flag-bool"
        (7 : Int) GoMap.empty (convertToInt64 amd64) =
      some (7, { ResolutionError := NewTypeMismatchResolutionError
                   "resolved value true is not of int64 type",
                 Reason := ErrorReason, Variant := "", FlagMetadata := GoMap.empty }) :=
  ⟨rfl,
    (resolve_error_default sampleFmtV (fun _ => "bool") 0 (constResolver none (some flagError))
      "flag-error" false GoMap.empty convertDefault).1 none flagError rfl,
    rfl, by decide, rfl,
    (resolve_error_default sampleFmtV (fun _ => "int64") 0 (constResolver (some flagBoolDto) none)
      "flag-bool" (7 : Int) GoMap.empty (convertToInt64 amd64)).2.1 flagBoolDto rfl (by decide)
      rfl⟩

/-- Claim C10. A success outcome that is not disabled and whose value converts
resolves, for every default, to the converted value with the stored reason,
variant and metadata and no error; and a result different from the default
arises only in this case. -/
theorem resolve_success {T : Type} (fmtV : Value → String) (fmtT : T → String) (ctx : Context)
    (r : resolver) (key : String) (evalCtx : GoMap) (convert : convertFunc T) :
    (∀ s : successDto, r.resolveSingle ctx key evalCtx = (some s, none) →
      s.Reason ≠ DisabledReason → (convert s.Value).2 = true →
      ∀ defaultValue : T,
        resolve fmtV fmtT ctx r key defaultValue evalCtx convert =
          some ((convert s.Value).1,
            { ResolutionError := noError, Reason := s.Reason, Variant := s.Variant,
              FlagMetadata := s.Metadata })) ∧
    (∀ (defaultValue v : T) (d : ProviderResolutionDetail),
      resolve fmtV fmtT ctx r key defaultValue evalCtx convert = some (v, d) →
      v ≠ defaultValue →
      ∃ s : successDto, r.resolveSingle ctx key evalCtx = (some s, none) ∧
        s.Reason ≠ DisabledReason ∧ (convert s.Value).2 = true ∧ v = (convert s.Value).1) := by
  constructor
  · intro s h hd hc defaultValue
    rcases hcv : convert s.Value with ⟨b, ok⟩
    rw [hcv] at hc
    simp only at hc
    subst hc
    simp [resolve, h, hd, hcv]
  · intro defaultValue v d h hne
    unfold resolve at h
    rcases hr : r.resolveSingle ctx key evalCtx with ⟨s, e⟩
    rw [hr] at h
    cases e with
    | some re =>
      simp at h
      exact absurd h.1.symm hne
    | none =>
      cases s with
      | none => simp at h
      | some s =>
        by_cases hd : s.Reason = DisabledReason
        · simp [hd] at h
          exact absurd h.1.symm hne
        · rcases hc : convert s.Value with ⟨b, ok⟩
          cases ok
          · simp [hd, hc] at h
            exact absurd h.1.symm hne
          · simp [hd, hc] at h
            exact ⟨s, rfl, hd, by rw [hc], by rw [hc]; exact h.1.symm⟩

/-- The entry `flag-bool` resolved as a boolean with default false gives true
with reason DEFAULT and no error. -/
theorem resolve_success_witness :
    (constResolver (some flagBoolDto) none).resolveSingle 0 "flag-bool" GoMap.empty =
      (some flagBoolDto, none) ∧
    flagBoolDto.Reason ≠ DisabledReason ∧
    (convertDefault flagBoolDto.Value : Bool × Bool).2 = true ∧
    resolve sampleFmtV (fun _ => "bool") 0 (constResolver (some flagBoolDto) none) "flag-bool"
        false GoMap.empty convertDefault =
      some (true, { ResolutionError := noError, Reason := DefaultReason, Variant := "true",
                    FlagMetadata := GoMap.empty }) :=
  ⟨rfl, by decide, rfl,
    (resolve_success sampleFmtV (fun _ => "bool") 0 (constResolver (some flagBoolDto) none)
      "flag-bool" GoMap.empty (convertDefault : convertFunc Bool)).1 flagBoolDto rfl (by decide)
      rfl false⟩

/-- Claim C11. `FlattenContext` maps every attribute name other than the
reserved targeting-key name to the attribute value of the context; with a
non-empty targeting key the reserved name maps to the targeting key, whatever
attribute had that name; with an empty targeting key the result is the
attribute map. -/
theorem flatten_context (evalCtx : EvaluationContext) :
    (∀ k : String, k ≠ TargetingKey → FlattenContext evalCtx k = evalCtx.attributes k) ∧
    (evalCtx.targetingKey ≠ "" →
      FlattenContext evalCtx TargetingKey = some (Value.string evalCtx.targetingKey)) ∧
    (evalCtx.targetingKey = "" → FlattenContext evalCtx = evalCtx.attributes) := by
  refine ⟨?_, ?_, ?_⟩
  · intro k hk
    unfold FlattenContext
    by_cases h : evalCtx.targetingKey = "" <;> simp [h, GoMap.set, hk]
  · intro h
    simp [FlattenContext, h, GoMap.set]
  · intro h
    simp [FlattenContext, h]

/-- The context of the test-suite: "color" is kept, the reserved name holds
"keyboard", and without targeting key the attributes come back as they are. -/
theorem flatten_context_witness :
    ("color" ≠ TargetingKey ∧
      FlattenContext sampleEvalCtx "color" = sampleEvalCtx.attributes "color") ∧
    (sampleEvalCtx.targetingKey ≠ "" ∧
      FlattenContext sampleEvalCtx TargetingKey = some (Value.string "keyboard")) ∧
    (({ targetingKey := "", attributes := sampleEvalCtx.attributes } : EvaluationContext).targetingKey
        = "" ∧
      FlattenContext { targetingKey := "", attributes := sampleEvalCtx.attributes } =
        sampleEvalCtx.attributes) :=
  ⟨⟨by decide, (flatten_context sampleEvalCtx).1 "color" (by decide)⟩,
    ⟨by decide, (flatten_context sampleEvalCtx).2.1 (by decide)⟩,
    ⟨rfl, (flatten_context { targetingKey := "", attributes := sampleEvalCtx.attributes }).2.2
      rfl⟩⟩

/-- Claim C12. A tick in state NotReady whose fetch fails with an error that is
not a cancellation changes nothing: the provider, its state NotReady and its
event queue are as before, no event is emitted, and the loop goes on. -/
theorem poll_failure_not_ready (p : BulkProvider) (e : GoError)
    (hs : p.state = State.NotReadyState) (he : e.canceled = false) :
    (pollTick p (some e)).provider = p ∧
    (pollTick p (some e)).provider.state = State.NotReadyState ∧
    (pollTick p (some e)).provider.events = p.events ∧
    (pollTick p (some e)).emitted = [] ∧
    (pollTick p (some e)).status = LoopStatus.next := by
  simp [pollTick, pollAct, isCanceled, he, hs]

/-- The failed tick on the new sample provider. -/
theorem poll_failure_not_ready_witness :
    sampleProvider.state = State.NotReadyState ∧ sampleFailure.canceled = false ∧
    ((pollTick sampleProvider (some sampleFailure)).provider = sampleProvider ∧
      (pollTick sampleProvider (some sampleFailure)).provider.state = State.NotReadyState ∧
      (pollTick sampleProvider (some sampleFailure)).provider.events = sampleProvider.events ∧
      (pollTick sampleProvider (some sampleFailure)).emitted = [] ∧
      (pollTick sampleProvider (some sampleFailure)).status = LoopStatus.next) :=
  ⟨rfl, rfl, poll_failure_not_ready sampleProvider sampleFailure rfl rfl⟩

/-- Claim C13. `convertToFloat64` accepts a stored float32 or float64 and returns
the same number; it rejects every other dynamic type, native int and int64
included, and `ResolveFloat` on such a value (success outcome, not disabled)
yields the default with a TypeMismatch error and reason ERROR, while on a
stored float it yields that float with the stored reason, variant and
metadata. -/
theorem convertToFloat64_spec :
    (∀ f : GoFloat, convertToFloat64 (Value.float32 f) = (f, true)) ∧
    (∀ f : GoFloat, convertToFloat64 (Value.float64 f) = (f, true)) ∧
    (∀ v : Value, (∀ f, v ≠ Value.float32 f) → (∀ f, v ≠ Value.float64 f) →
      convertToFloat64 v = (GoFloat.fin 0 0, false)) ∧
    (∀ i : Int, convertToFloat64 (Value.int i) = (GoFloat.fin 0 0, false) ∧
      convertToFloat64 (Value.int64 i) = (GoFloat.fin 0 0, false)) ∧
    (∀ (h : Flags) (fmtV : Value → String) (ctx : Context) (key : String)
      (defaultValue : GoFloat) (evalCtx : GoMap) (s : successDto),
      h.resolver.resolveSingle ctx key evalCtx = (some s, none) →
      s.Reason ≠ DisabledReason →
      ((∀ f, s.Value ≠ Value.float32 f) → (∀ f, s.Value ≠ Value.float64 f) →
        h.ResolveFloat fmtV ctx key defaultValue evalCtx =
          some { Value := defaultValue,
                 ProviderResolutionDetail :=
                   { ResolutionError := NewTypeMismatchResolutionError
                       (mismatchMessage fmtV (fun _ => "float64") s.Value defaultValue),
                     Reason := ErrorReason, Variant := "", FlagMetadata := GoMap.empty } }) ∧
      (∀ f, s.Value = Value.float32 f ∨ s.Value = Value.float64 f →
        h.ResolveFloat fmtV ctx key defaultValue evalCtx =
          some { Value := f,
                 ProviderResolutionDetail :=
                   { ResolutionError := noError, Reason := s.Reason, Variant := s.Variant,
                     FlagMetadata := s.Metadata } })) := by
  have hrej : ∀ v : Value, (∀ f, v ≠ Value.float32 f) → (∀ f, v ≠ Value.float64 f) →
      convertToFloat64 v = (GoFloat.fin 0 0, false) := by
    intro v h1 h2
    cases v <;> first | rfl | exact absurd rfl (h1 _) | exact absurd rfl (h2 _)
  refine ⟨fun _ => rfl, fun _ => rfl, hrej, fun _ => ⟨rfl, rfl⟩, ?_⟩
  intro h fmtV ctx key defaultValue evalCtx s hr hd
  constructor
  · intro h1 h2
    simp [Flags.ResolveFloat, resolve, hr, hd, hrej s.Value h1 h2, ResolutionDetail.ofPair]
  · intro f hf
    have hc : convertToFloat64 s.Value = (f, true) := by
      rcases hf with hf | hf <;> rw [hf] <;> rfl
    simp [Flags.ResolveFloat, resolve, hr, hd, hc, ResolutionDetail.ofPair]

/-- A stored native int 3 resolved as a float with default 0.5 gives 0.5 with
TypeMismatch. -/
theorem convertToFloat64_spec_witness :
    (∀ f, intDto.Value ≠ Value.float32 f) ∧ (∀ f, intDto.Value ≠ Value.float64 f) ∧
    (Flags.mk (constResolver (some intDto) none)).resolver.resolveSingle 0 "flag-int" GoMap.empty =
      (some intDto, none) ∧
    intDto.Reason ≠ DisabledReason ∧
    Flags.ResolveFloat (Flags.mk (constResolver (some intDto) none)) sampleFmtV 0 "flag-int"
        (GoFloat.fin 1 (-1)) GoMap.empty =
      some { Value := GoFloat.fin 1 (-1),
             ProviderResolutionDetail :=
               { ResolutionError := NewTypeMismatchResolutionError
                   (mismatchMessage sampleFmtV (fun _ => "float64") intDto.Value
                     (GoFloat.fin 1 (-1))),
                 Reason := ErrorReason, Variant := "", FlagMetadata := GoMap.empty } } := by
  have h1 : ∀ f, intDto.Value ≠ Value.float32 f := by
    intro f h
    simp [intDto] at h
  have h2 : ∀ f, intDto.Value ≠ Value.float64 f := by
    intro f h
    simp [intDto] at h
  have h3 : intDto.Reason ≠ DisabledReason := by decide
  exact ⟨h1, h2, rfl, h3,
    ((convertToFloat64_spec.2.2.2.2 (Flags.mk (constResolver (some intDto) none)) sampleFmtV 0
      "flag-int" (GoFloat.fin 1 (-1)) GoMap.empty intDto rfl h3).1 h1 h2)⟩

/-- Claim C14. From Ready, with room for two events, a tick with a
non-cancellation failure and then a tick with success give the states Stale,
Ready and emit provider-stale then provider-ready, in that order. For every run
of non-cancelled ticks (and receives of the consumer) started in Ready or
Stale, one event is emitted per tick run, and the state is Ready if the last
fetch succeeded and Stale if it failed. With room in the channel for one event
per tick, every tick of the list runs. -/
theorem polling_trace :
    (∀ (p : BulkProvider) (e : GoError), p.state = State.ReadyState → e.canceled = false →
      p.events.buf.length + 2 ≤ p.events.cap →
      ((LoopState.start p).run [Step.pass (Select.tick (some e))]).provider.state =
        State.StaleState ∧
      ((LoopState.start p).run
        [Step.pass (Select.tick (some e)), Step.pass (Select.tick none)]).provider.state =
        State.ReadyState ∧
      ((LoopState.start p).run
        [Step.pass (Select.tick (some e)), Step.pass (Select.tick none)]).emitted =
        [failureEvent EventType.ProviderStale e, readyEvent] ∧
      ((LoopState.start p).run
        [Step.pass (Select.tick (some e)), Step.pass (Select.tick none)]).provider.events.buf =
        p.events.buf ++ [failureEvent EventType.ProviderStale e, readyEvent] ∧
      ((LoopState.start p).run
        [Step.pass (Select.tick (some e)), Step.pass (Select.tick none)]).ticks =
        [some e, none]) ∧
    (∀ (p : BulkProvider) (steps : List Step),
      p.state = State.ReadyState ∨ p.state = State.StaleState →
      (∀ st ∈ steps, st.notCancelled) →
      ((LoopState.start p).run steps).emitted.length =
        ((LoopState.start p).run steps).ticks.length ∧
      (∀ err, ((LoopState.start p).run steps).ticks.getLast? = some err →
        (err = none → ((LoopState.start p).run steps).provider.state = State.ReadyState) ∧
        (err ≠ none → ((LoopState.start p).run steps).provider.state = State.StaleState))) ∧
    (∀ (p : BulkProvider) (errs : List (Option GoError)),
      p.state = State.ReadyState ∨ p.state = State.StaleState →
      (∀ err ∈ errs, isCanceled err = false) →
      p.events.buf.length + errs.length ≤ p.events.cap →
      ((LoopState.start p).run (errs.map (fun err => Step.pass (Select.tick err)))).ticks =
        errs ∧
      ((LoopState.start p).run (errs.map (fun err => Step.pass (Select.tick err)))).status =
        LoopStatus.next) := by
  refine ⟨?_, ?_, ?_⟩
  · intro p e hs he hroom
    rcases p with ⟨ev, cfg, st, ⟨cap, buf⟩, cf⟩
    simp only at hs hroom
    subst hs
    have h1 : buf.length < cap := by omega
    have h2 : buf.length + 1 < cap := by omega
    simp [LoopState.run, LoopState.start, LoopState.step, pollSelect, pollTick, pollAct,
      isCanceled, he, BulkProvider.setState, Sent.toTick, BulkProvider.emit, EventChan.send,
      h1, h2, Select.fetched, failureEvent, readyEvent]
  · intro p steps hs hall
    have h := run_settled steps (LoopState.start p) hall hs rfl
      (by intro err h; simp [LoopState.start] at h)
    exact ⟨h.2.1, h.2.2⟩
  · intro p errs hs hall hroom
    have h := run_all_ticks errs (LoopState.start p) hall hs rfl hroom
    simpa [LoopState.start] using h

/-- The scenario of the rate-limit test on the sample provider. -/
theorem polling_trace_witness :
    (sampleIn State.ReadyState).state = State.ReadyState ∧ sampleFailure.canceled = false ∧
    (sampleIn State.ReadyState).events.buf.length + 2 ≤ (sampleIn State.ReadyState).events.cap ∧
    ((LoopState.start (sampleIn State.ReadyState)).run
      [Step.pass (Select.tick (some sampleFailure))]).provider.state = State.StaleState ∧
    ((LoopState.start (sampleIn State.ReadyState)).run
      [Step.pass (Select.tick (some sampleFailure)),
       Step.pass (Select.tick none)]).provider.state = State.ReadyState ∧
    ((LoopState.start (sampleIn State.ReadyState)).run
      [Step.pass (Select.tick (some sampleFailure)), Step.pass (Select.tick none)]).emitted =
      [failureEvent EventType.ProviderStale sampleFailure, readyEvent] :=
  ⟨rfl, rfl, by decide,
    (polling_trace.1 (sampleIn State.ReadyState) sampleFailure rfl rfl (by decide)).1,
    (polling_trace.1 (sampleIn State.ReadyState) sampleFailure rfl rfl (by decide)).2.1,
    (polling_trace.1 (sampleIn State.ReadyState) sampleFailure rfl rfl (by decide)).2.2.1⟩

/-- Claim C15, as stated, fails on a full queue: after three unreceived events
the sample provider has 3 of 3 slots taken; the next tick that emits is parked
on its send, it does not complete, and the tick after it does not run. -/
theorem emit_on_full_queue_parks :
    sampleFull.events.cap = 3 ∧ sampleFull.events.buf.length = 3 ∧
    (pollTick sampleFull (some sampleFailure)).emitted =
      [failureEvent EventType.ProviderStale sampleFailure] ∧
    (pollTick sampleFull (some sampleFailure)).status = LoopStatus.parked ∧
    (pollTick sampleFull (some sampleFailure)).status ≠ LoopStatus.next ∧
    ((LoopState.start sampleFull).run
      [Step.pass (Select.tick (some sampleFailure)), Step.pass (Select.tick none)]).ticks =
      [some sampleFailure] ∧
    ((LoopState.start sampleFull).run
      [Step.pass (Select.tick (some sampleFailure)), Step.pass (Select.tick none)]).status =
      LoopStatus.parked := by
  refine ⟨rfl, rfl, rfl, rfl, by decide, rfl, rfl⟩

/-- Claim C15, amended. For a tick that emits an event: with room in the queue
the event is queued and the loop takes its next step; with a full queue the
goroutine is parked on the send with the queue unchanged, and goes on to its
next step once the consumer has received one event (the parked event then
enters the queue). State and emitted event do not depend on the occupancy of
the queue: the state is written before the send. -/
theorem emit_and_queue_room (p : BulkProvider) (err : Option GoError)
    (hem : (pollTick p err).emitted ≠ []) :
    (p.events.buf.length < p.events.cap →
      (pollTick p err).status = LoopStatus.next ∧
      (pollTick p err).provider.events.buf = p.events.buf ++ (pollTick p err).emitted) ∧
    (p.events.cap ≤ p.events.buf.length →
      (pollTick p err).status = LoopStatus.parked ∧
      (pollTick p err).provider.events = p.events ∧
      ((LoopState.start p).run [Step.pass (Select.tick err), Step.receive]).status =
        LoopStatus.next ∧
      (0 < p.events.cap →
        ((LoopState.start p).run [Step.pass (Select.tick err), Step.receive]).provider.events.buf =
          p.events.buf.tail ++ (pollTick p err).emitted)) ∧
    (∀ ch : EventChan,
      (pollTick { p with events := ch } err).provider.state = (pollTick p err).provider.state ∧
      (pollTick { p with events := ch } err).emitted = (pollTick p err).emitted) := by
  obtain ⟨s, e, hpt⟩ := pollTick_emits p err hem
  refine ⟨?_, ?_, ?_⟩
  · intro hroom
    have h := emit_of_room { p with state := s } e hroom
    rw [hpt, h]
    simp [Sent.toTick]
  · intro hfull
    have h := emit_of_full { p with state := s } e hfull
    have hp : pollTick p err =
        { provider := { p with state := s }, emitted := [e], status := LoopStatus.parked } := by
      rw [hpt, h]
      simp [Sent.toTick]
    refine ⟨by rw [hp], by rw [hp], ?_, ?_⟩
    · cases hb : p.events.buf <;>
        simp [LoopState.run, LoopState.start, LoopState.step, pollSelect, hp, hb]
    · intro hcap
      cases hb : p.events.buf with
      | nil =>
        rw [hb] at hfull
        simp at hfull
        omega
      | cons x rest =>
        simp [LoopState.run, LoopState.start, LoopState.step, pollSelect, hp, hb]
  · intro ch
    rcases p with ⟨ev, cfg, st, ch0, cf⟩
    cases err with
    | none =>
      cases st <;>
        simp [pollTick, pollAct, isCanceled, BulkProvider.setState, Sent.toTick,
          emit_emitted, emit_state]
    | some e =>
      cases hcz : e.canceled <;> cases st <;>
        simp [pollTick, pollAct, isCanceled, hcz, BulkProvider.setState, Sent.toTick,
          emit_emitted, emit_state]

/-- The failure tick on the full sample provider parks and resumes after a
receive; on the sample provider with an empty queue it completes. -/
theorem emit_and_queue_room_witness :
    (pollTick sampleFull (some sampleFailure)).emitted ≠ [] ∧
    sampleFull.events.cap ≤ sampleFull.events.buf.length ∧
    ((pollTick sampleFull (some sampleFailure)).status = LoopStatus.parked ∧
      (pollTick sampleFull (some sampleFailure)).provider.events = sampleFull.events ∧
      ((LoopState.start sampleFull).run
        [Step.pass (Select.tick (some sampleFailure)), Step.receive]).status =
        LoopStatus.next ∧
      (0 < sampleFull.events.cap →
        ((LoopState.start sampleFull).run
          [Step.pass (Select.tick (some sampleFailure)), Step.receive]).provider.events.buf =
          sampleFull.events.buf.tail ++ (pollTick sampleFull (some sampleFailure)).emitted)) ∧
    (pollTick (sampleIn State.ReadyState) none).emitted ≠ [] ∧
    (sampleIn State.ReadyState).events.buf.length < (sampleIn State.ReadyState).events.cap ∧
    ((pollTick (sampleIn State.ReadyState) none).status = LoopStatus.next ∧
      (pollTick (sampleIn State.ReadyState) none).provider.events.buf =
        (sampleIn State.ReadyState).events.buf ++
          (pollTick (sampleIn State.ReadyState) none).emitted) :=
  ⟨by decide, by decide,
    (emit_and_queue_room sampleFull (some sampleFailure) (by decide)).2.1 (by decide),
    by decide, by decide,
    (emit_and_queue_room (sampleIn State.ReadyState) none (by decide)).1 (by decide)⟩

/-- Claim C16. A tick whose fetch fails because of cancellation leaves the
provider as it is for every prior state, emits no event and makes the goroutine
return; in every continuation of the run that loop runs no further tick, emits
nothing more and does not touch the state. -/
theorem cancelled_tick_ends_loop (p : BulkProvider) (e : GoError) (he : e.canceled = true) :
    (pollTick p (some e)).provider = p ∧
    (pollTick p (some e)).emitted = [] ∧
    (pollTick p (some e)).status = LoopStatus.returned ∧
    (∀ (l : LoopState) (steps : List Step), l.status = LoopStatus.next →
      (l.step (Step.pass (Select.tick (some e)))).provider = l.provider ∧
      ((l.step (Step.pass (Select.tick (some e)))).run steps).ticks = l.ticks ++ [some e] ∧
      ((l.step (Step.pass (Select.tick (some e)))).run steps).emitted = l.emitted ∧
      ((l.step (Step.pass (Select.tick (some e)))).run steps).provider.state =
        l.provider.state ∧
      ((l.step (Step.pass (Select.tick (some e)))).run steps).status =
        LoopStatus.returned) := by
  have hp : pollTick p (some e) = { provider := p, emitted := [], status := LoopStatus.returned } := by
    simp [pollTick, isCanceled, he]
  refine ⟨by rw [hp], by rw [hp], by rw [hp], ?_⟩
  intro l steps hn
  have hl : l.step (Step.pass (Select.tick (some e))) =
      { provider := l.provider, status := LoopStatus.returned, pending := none,
        emitted := l.emitted, ticks := l.ticks ++ [some e] } := by
    simp [LoopState.step, hn, pollSelect, pollTick, isCanceled, he, Select.fetched]
  rw [hl]
  obtain ⟨r1, r2, r3, r4⟩ := run_returned steps
    { provider := l.provider, status := LoopStatus.returned, pending := none,
      emitted := l.emitted, ticks := l.ticks ++ [some e] } rfl rfl
  exact ⟨rfl, r1, r2, r3, r4⟩

/-- A cancelled tick on the sample provider in state Stale; the two later
passes do not run. -/
theorem cancelled_tick_ends_loop_witness :
    sampleCanceled.canceled = true ∧
    (pollTick (sampleIn State.StaleState) (some sampleCanceled)).provider =
      sampleIn State.StaleState ∧
    (pollTick (sampleIn State.StaleState) (some sampleCanceled)).emitted = [] ∧
    (pollTick (sampleIn State.StaleState) (some sampleCanceled)).status = LoopStatus.returned ∧
    (LoopState.start (sampleIn State.StaleState)).status = LoopStatus.next ∧
    (((LoopState.start (sampleIn State.StaleState)).step
        (Step.pass (Select.tick (some sampleCanceled)))).run
      [Step.pass (Select.tick none), Step.receive, Step.pass (Select.tick none)]).ticks =
      [some sampleCanceled] ∧
    (((LoopState.start (sampleIn State.StaleState)).step
        (Step.pass (Select.tick (some sampleCanceled)))).run
      [Step.pass (Select.tick none), Step.receive, Step.pass (Select.tick none)]).provider.state =
      State.StaleState :=
  ⟨rfl, (cancelled_tick_ends_loop (sampleIn State.StaleState) sampleCanceled rfl).1,
    (cancelled_tick_ends_loop (sampleIn State.StaleState) sampleCanceled rfl).2.1,
    (cancelled_tick_ends_loop (sampleIn State.StaleState) sampleCanceled rfl).2.2.1,
    rfl,
    ((cancelled_tick_ends_loop (sampleIn State.StaleState) sampleCanceled rfl).2.2.2
      (LoopState.start (sampleIn State.StaleState))
      [Step.pass (Select.tick none), Step.receive, Step.pass (Select.tick none)] rfl).2.1,
    ((cancelled_tick_ends_loop (sampleIn State.StaleState) sampleCanceled rfl).2.2.2
      (LoopState.start (sampleIn State.StaleState))
      [Step.pass (Select.tick none), Step.receive, Step.pass (Select.tick none)] rfl).2.2.2.1⟩

/-- Claim C17. The code at the failing input: after a successful `Init` a tick
of the first loop has its fetch fail and reads Ready; `Shutdown` and a second
`Init` whose fetch fails then run, which leaves the state Error with no fetch
succeeded since that `Init`; the tick in flight then runs its switch on the
Ready it had read and writes Stale. The provider is Stale, entered from Error,
and no fetch has succeeded since the most recent `Init`. -/
theorem stale_after_failed_reinit :
    ((Machine.new sampleProvider).run (staleRace.take 3)).provider.state = State.ReadyState ∧
    ((Machine.new sampleProvider).run (staleRace.take 3)).flights =
      [Flight.read State.ReadyState (some sampleFailure)] ∧
    ((Machine.new sampleProvider).run (staleRace.take 5)).provider.state = State.ErrorState ∧
    ((Machine.new sampleProvider).run (staleRace.take 5)).fetched = false ∧
    ((Machine.new sampleProvider).run staleRace).provider.state = State.StaleState ∧
    ((Machine.new sampleProvider).run staleRace).fetched = false ∧
    (pollAct ((Machine.new sampleProvider).run (staleRace.take 5)).provider State.ReadyState
      (some sampleFailure)).provider.state = State.StaleState ∧
    (pollAct ((Machine.new sampleProvider).run (staleRace.take 5)).provider State.ReadyState
      (some sampleFailure)).emitted = [failureEvent EventType.ProviderStale sampleFailure] := by
  refine ⟨rfl, rfl, rfl, rfl, rfl, rfl, rfl, rfl⟩

/-- Claim C18. After the header loop of `sendRequest` a header key holds the one
value produced by the last callback of the list whose name has that canonical
form; a key that no callback produced keeps what the request had; method, URL
and body are untouched. `sendRequest` runs this loop on a new POST request with
an empty header and hands the outcome, and nothing else, to the transport: on
that request a key holds the value of the last callback that produced it and is
unset when none did, a transport that sends the request headers back returns
exactly these, and when the request cannot be built nothing is sent. -/
theorem headers_last_writer_wins (canon : String → String) (h : Outbound) (req : Request)
    (k : String) :
    ((h.setHeaders canon req).Header k =
      match h.headerProvider.reverse.find? (fun cb => decide (canon (cb ()).1 = k)) with
      | some cb => some [(cb ()).2]
      | none => req.Header k) ∧
    ((∀ cb ∈ h.headerProvider, canon (cb ()).1 ≠ k) →
      (h.setHeaders canon req).Header k = req.Header k) ∧
    (h.setHeaders canon req).Method = req.Method ∧
    (h.setHeaders canon req).URL = req.URL ∧
    (h.setHeaders canon req).Body = req.Body ∧
    (∀ (transport : Request → Except GoError Response) (ctx : Context) (path payload : String),
      h.sendRequest canon none transport ctx path payload =
        h.sendRequest canon none
          (fun _ => transport (h.setHeaders canon
            { ctx := ctx, Method := "POST", URL := path, Body := payload,
              Header := Header.empty }))
          ctx path payload) ∧
    (∀ (ctx : Context) (path payload : String),
      (h.setHeaders canon
        { ctx := ctx, Method := "POST", URL := path, Body := payload,
          Header := Header.empty }).Header k =
        match h.headerProvider.reverse.find? (fun cb => decide (canon (cb ()).1 = k)) with
        | some cb => some [(cb ()).2]
        | none => none) ∧
    (∀ (ctx : Context) (path payload : String),
      ∃ res : Resolution,
        h.sendRequest canon none echoTransport ctx path payload = Except.ok res ∧
        res.Status = 200 ∧
        res.Headers k =
          match h.headerProvider.reverse.find? (fun cb => decide (canon (cb ()).1 = k)) with
          | some cb => some [(cb ()).2]
          | none => none) ∧
    (∀ (err : GoError) (t1 t2 : Request → Except GoError Response) (ctx : Context)
      (path payload : String),
      h.sendRequest canon (some err) t1 ctx path payload =
        h.sendRequest canon (some err) t2 ctx path payload ∧
      h.sendRequest canon (some err) t1 ctx path payload =
        Except.error
          { msg := "GENERAL: request building error: " ++ err.msg, canceled := false }) := by
  have hmain := foldl_set_header canon h.headerProvider req k
  obtain ⟨_, f2, f3, f4⟩ := foldl_set_header_frame canon h.headerProvider req
  have hnew : ∀ (ctx : Context) (path payload : String),
      (h.setHeaders canon
        { ctx := ctx, Method := "POST", URL := path, Body := payload,
          Header := Header.empty }).Header k =
        match h.headerProvider.reverse.find? (fun cb => decide (canon (cb ()).1 = k)) with
        | some cb => some [(cb ()).2]
        | none => none := by
    intro ctx path payload
    exact foldl_set_header canon h.headerProvider _ k
  refine ⟨hmain, ?_, f2, f3, f4, ?_, hnew, ?_, ?_⟩
  · intro hnone
    have hf : h.headerProvider.reverse.find? (fun cb => decide (canon (cb ()).1 = k)) = none := by
      rw [List.find?_eq_none]
      intro cb hcb
      have := hnone cb (List.mem_reverse.mp hcb)
      simp [this]
    unfold Outbound.setHeaders
    rw [hmain, hf]
  · intro transport ctx path payload
    rfl
  · intro ctx path payload
    refine ⟨{ Data := "", Status := 200,
              Headers := (h.setHeaders canon
                { ctx := ctx, Method := "POST", URL := path, Body := payload,
                  Header := Header.empty }).Header }, rfl, rfl, hnew ctx path payload⟩
  · intro err t1 t2 ctx path payload
    exact ⟨rfl, rfl⟩

/-- Of two callbacks for Authorization the later one wins; Accept, which no
callback produces, stays unset; the echoing transport receives exactly that
from `sendRequest`. -/
theorem headers_last_writer_wins_witness :
    (sampleOutbound.setHeaders id sampleRequest).Header "Authorization" =
      some ["Bearer api-key"] ∧
    (∀ cb ∈ sampleOutbound.headerProvider, id (cb ()).1 ≠ "Accept") ∧
    (sampleOutbound.setHeaders id sampleRequest).Header "Accept" = none ∧
    (∃ res : Resolution,
      sampleOutbound.sendRequest id none echoTransport 1
          "http://localhost/ofrep/v1/evaluate/flags" "" = Except.ok res ∧
        res.Status = 200 ∧
        res.Headers "Authorization" =
          match sampleOutbound.headerProvider.reverse.find?
              (fun cb => decide (id (cb ()).1 = "Authorization")) with
          | some cb => some [(cb ()).2]
          | none => none) ∧
    (match sampleOutbound.headerProvider.reverse.find?
        (fun cb => decide (id (cb ()).1 = "Authorization")) with
      | some cb => some [(cb ()).2]
      | none => none) = some ["Bearer api-key"] := by
  have hn : ∀ cb ∈ sampleOutbound.headerProvider, id (cb ()).1 ≠ "Accept" := by
    intro cb hcb
    simp [sampleOutbound, NewHTTP, sampleCallbacks] at hcb
    rcases hcb with h | h | h <;> subst h <;> decide
  refine ⟨?_, hn, ?_, ?_, rfl⟩
  · have h := (headers_last_writer_wins id sampleOutbound sampleRequest "Authorization").1
    rw [h]
    rfl
  · exact (headers_last_writer_wins id sampleOutbound sampleRequest "Accept").2.1 hn
  · exact (headers_last_writer_wins id sampleOutbound sampleRequest "Authorization").2.2.2.2.2.2.2.1
      1 "http://localhost/ofrep/v1/evaluate/flags" ""

/-- Claim C19. For a success outcome that is not disabled, `ResolveObject`
returns the stored value with the stored reason, variant and metadata and no
error when that value is not nil, whatever its dynamic type, and the default
with a TypeMismatch error and reason ERROR when it is nil. -/
theorem resolve_object (h : Flags) (fmtV fmtT : Value → String) (ctx : Context) (key : String)
    (defaultValue : Value) (evalCtx : GoMap) (s : successDto)
    (hr : h.resolver.resolveSingle ctx key evalCtx = (some s, none))
    (hd : s.Reason ≠ DisabledReason) :
    (s.Value ≠ Value.null →
      h.ResolveObject fmtV fmtT ctx key defaultValue evalCtx =
        some { Value := s.Value,
               ProviderResolutionDetail :=
                 { ResolutionError := noError, Reason := s.Reason, Variant := s.Variant,
                   FlagMetadata := s.Metadata } }) ∧
    (s.Value = Value.null →
      h.ResolveObject fmtV fmtT ctx key defaultValue evalCtx =
        some { Value := defaultValue,
               ProviderResolutionDetail :=
                 { ResolutionError := NewTypeMismatchResolutionError
                     (mismatchMessage fmtV fmtT Value.null defaultValue),
                   Reason := ErrorReason, Variant := "", FlagMetadata := GoMap.empty } }) := by
  constructor
  · intro hv
    have hc : (convertDefault s.Value : Value × Bool) = (s.Value, true) := by
      cases hs : s.Value <;> first | exact absurd hs hv | rfl
    simp [Flags.ResolveObject, resolve, hr, hd, hc, ResolutionDetail.ofPair]
  · intro hv
    have hc : (convertDefault Value.null : Value × Bool) = (Value.null, false) := rfl
    simp [Flags.ResolveObject, resolve, hr, hd, hv, hc, ResolutionDetail.ofPair]

/-- A stored object is returned as it is; a stored nil gives the default with
TypeMismatch. -/
theorem resolve_object_witness :
    (Flags.mk (constResolver (some objectDto) none)).resolver.resolveSingle 0 "flag-obj"
        GoMap.empty = (some objectDto, none) ∧
    objectDto.Reason ≠ DisabledReason ∧ objectDto.Value ≠ Value.null ∧
    Flags.ResolveObject (Flags.mk (constResolver (some objectDto) none)) sampleFmtV sampleFmtT 0
        "flag-obj" (Value.string "fallback") GoMap.empty =
      some { Value := Value.object [("size", Value.int 3)],
             ProviderResolutionDetail :=
               { ResolutionError := noError, Reason := "STATIC", Variant := "obj",
                 FlagMetadata := GoMap.empty } } ∧
    (Flags.mk (constResolver (some nullDto) none)).resolver.resolveSingle 0 "flag-nil"
        GoMap.empty = (some nullDto, none) ∧
    nullDto.Reason ≠ DisabledReason ∧ nullDto.Value = Value.null ∧
    Flags.ResolveObject (Flags.mk (constResolver (some nullDto) none)) sampleFmtV sampleFmtT 0
        "flag-nil" (Value.string "fallback") GoMap.empty =
      some { Value := Value.string "fallback",
             ProviderResolutionDetail :=
               { ResolutionError := NewTypeMismatchResolutionError
                   (mismatchMessage sampleFmtV sampleFmtT Value.null (Value.string "fallback")),
                 Reason := ErrorReason, Variant := "", FlagMetadata := GoMap.empty } } := by
  have h1 : objectDto.Reason ≠ DisabledReason := by decide
  have h2 : objectDto.Value ≠ Value.null := by
    intro h
    simp [objectDto] at h
  have h3 : nullDto.Reason ≠ DisabledReason := by decide
  exact ⟨rfl, h1, h2,
    (resolve_object (Flags.mk (constResolver (some objectDto) none)) sampleFmtV sampleFmtT 0
      "flag-obj" (Value.string "fallback") GoMap.empty objectDto rfl h1).1 h2,
    rfl, h3, rfl,
    (resolve_object (Flags.mk (constResolver (some nullDto) none)) sampleFmtV sampleFmtT 0
      "flag-nil" (Value.string "fallback") GoMap.empty nullDto rfl h3).2 rfl⟩

/-- Claim C20. The code at the failing input: after `Init` the sample provider
is Ready and holds an evaluator; after `Shutdown` it is NotReady; a tick whose
fetch succeeded then makes it Ready while it holds no evaluator, and a further
`Init` does not give it one. -/
theorem ready_without_evaluator :
    (sampleProvider.runActions [Action.init sampleEvalCtx 1 none]).state = State.ReadyState ∧
    (sampleProvider.runActions [Action.init sampleEvalCtx 1 none]).evaluator.isSome = true ∧
    (sampleProvider.runActions [Action.init sampleEvalCtx 1 none, Action.shutdown]).state =
      State.NotReadyState ∧
    (sampleProvider.runActions
      [Action.init sampleEvalCtx 1 none, Action.shutdown, Action.tick none]).state =
      State.ReadyState ∧
    (sampleProvider.runActions
      [Action.init sampleEvalCtx 1 none, Action.shutdown, Action.tick none]).evaluator.isSome =
      false ∧
    ((sampleProvider.runActions
      [Action.init sampleEvalCtx 1 none, Action.shutdown, Action.tick none]).Init
        sampleEvalCtx 2 none).provider.evaluator.isSome = false := by
  refine ⟨rfl, rfl, rfl, rfl, rfl, rfl⟩

end Ofrep
